import Mathlib

/-!
Verification of the metadata-enrichment pipeline and batch orchestrator of
podcast-feed-gen, shallowly embedded from `src/generator/generate_feed.py`.
Stateful in-place mutation is modelled by explicit state passing (a `populate`
call returns the mutated entity next to the optional exception, so the state
visible after a raise is the state the mutation left behind), and the
observable calls of a run (network fetches, `prepare_batch`, `accepts`,
`populate`) are recorded as a trace of events.  Collaborators whose code is
not in the repository snapshot (ShowSource, EpisodeSource, the metadata-source
base classes, `Show.add_episodes_to_feed`) are modelled from the spec, each
marked `Modelled from the spec:` in its doc comment.
-/

namespace PodcastFeedGen

/-- The exception taxonomy the generator core deals in: the voluntary skip
signals `SkipShow` and `SkipEpisode`, `NoEpisodesError`, `NoSuchShowError`,
Python's `KeyError`, and `other tag` standing for any other abnormal
termination (network error, programming error, ...). -/
inductive Exc where
  | skipShow
  | skipEpisode
  | noEpisodes
  | noSuchShow
  | keyError
  | other (tag : Nat)
  deriving DecidableEq, Repr

/-- A show of the catalog, `Show(title, show_id)`: its display title, its
externally assigned numeric identifier, and the mutable mapping of enrichment
fields filled in by show-level metadata sources. -/
structure Show where
  title : String
  show_id : Nat
  fields : List (String × String) := []
  deriving DecidableEq, Repr

/-- An episode entity: the identifier of its owning show, its title, its sound
URL (used here as the episode's identifier), and its mutable enrichment
fields. -/
structure Episode where
  show_id : Nat
  title : String
  sound_url : String
  fields : List (String × String) := []
  deriving DecidableEq, Repr

/-- A raw record of the whole-catalog episode list `EpisodeSource.all_episodes`;
`program_defnr` is the owning show's identifier (0 is the orphan sentinel). -/
structure RawEpisode where
  program_defnr : Nat
  title : String
  sound_url : String
  deriving DecidableEq, Repr

/-- Modelled from the spec: a show-level metadata source (the source base class
is not in the snapshot, only its call sites in `generate_feed.py` are).  It
carries a bypass set of show identifiers, an `accepts` predicate and a
`populate` step; `populate` returns the mutated show next to the optional
exception, mirroring in-place mutation that survives a raise. -/
structure ShowMetadataSource where
  bypass : List Nat
  accepts : Show → Bool
  populate : Show → Option Exc × Show

/-- Modelled from the spec: an episode-level metadata source; its bypass set
holds episode identifiers (sound URLs). -/
structure EpisodeMetadataSource where
  bypass : List String
  accepts : Episode → Bool
  populate : Episode → Option Exc × Episode

/-- The state a `PodcastFeedGenerator` instance reads: the ShowSource catalog
(`shows` keyed by show identifier and `get_show_names` keyed by display
title, in insertion order), the two configured source chains, and the remote
whole-catalog episode list that EpisodeSource fetches.  ShowSource and
EpisodeSource themselves are modelled from the spec. -/
structure Generator where
  shows : List (Nat × Show)
  get_show_names : List (String × Show)
  show_metadata_sources : List ShowMetadataSource
  episode_metadata_sources : List EpisodeMetadataSource
  all_episodes : List RawEpisode

/-- Modelled from the spec: `EpisodeSource.episode(show, record, requests)` —
pure construction of an Episode entity from one raw record and its owning
Show. -/
def EpisodeSource.episode (sh : Show) (rec : RawEpisode) : Episode :=
  { show_id := sh.show_id, title := rec.title, sound_url := rec.sound_url }

/-- Modelled from the spec: `EpisodeSource.episode_list(show)` returns the
records belonging to one show (those whose `program_defnr` equals the show's
identifier) as episodes; the caller treats an empty result as
`NoEpisodesError`. -/
def Generator.episode_list (g : Generator) (sh : Show) : List Episode :=
  (g.all_episodes.filter (fun r => r.program_defnr == sh.show_id)).map
    (EpisodeSource.episode sh)

/-- ASCII model of Python's `str.lower`, applied character by character. -/
def py_lower (s : String) : String :=
  String.mk (s.data.map Char.toLower)

/-- `re_remove_chars.sub("", s.lower())` with
`re_remove_chars = re.compile(r"[^\w\d]|_")` (src line 27): lowercase, then
drop every character that is not a letter or a digit (underscore included). -/
def re_remove_chars_sub_lower (s : String) : String :=
  String.mk ((py_lower s).data.filter (fun c => c.isAlphanum))

/-- `PodcastFeedGenerator.get_show_id_by_name(name)` (src lines 158-165): the
query is lowercased; the stored display names are lowercased and stripped of
non-alphanumeric characters; dict-comprehension semantics make the last entry
with a given key win, modelled by searching the reversed list.  A missed key
(`KeyError`) is re-raised as `NoSuchShowError`. -/
def get_show_id_by_name (g : Generator) (name : String) : Except Exc Nat :=
  match (g.get_show_names.map
      (fun p => (re_remove_chars_sub_lower p.1, p.2))).reverse.find?
      (fun p => p.1 == py_lower name) with
  | some p => Except.ok p.2.show_id
  | none => Except.error Exc.noSuchShow

/-- Observable calls of one run, recorded in order: the whole-catalog episode
fetch (`populate_all_episodes_list`), a per-show episode fetch, `prepare_batch`
on the i-th source of a chain, and `accepts`/`populate` of the i-th source on
the entity named by its identifier. -/
inductive Event where
  | fetchAllEpisodesEv
  | fetchEpisodeListEv (sid : Nat)
  | prepareBatchEpisodeSrcEv (i : Nat)
  | prepareBatchShowSrcEv (i : Nat)
  | acceptsShowSrcEv (i : Nat) (sid : Nat)
  | populateShowSrcEv (i : Nat) (sid : Nat)
  | acceptsEpisodeSrcEv (i : Nat) (url : String)
  | populateEpisodeSrcEv (i : Nat) (url : String)
  deriving DecidableEq, Repr

/-- `PodcastFeedGenerator._populate_show_metadata(show, enable_skip_show)`
(src lines 167-178), with the chain position `k` of the first remaining source
made explicit so the trace names the source consulted.  For each source in
order: `accepts`; when it is true, `populate`; a raised `SkipShow` is re-raised
when `enable_skip_show` is set and swallowed (the chain continues) otherwise;
any other exception propagates at once. -/
def populateShowMetadataAux (enable_skip_show : Bool) :
    Nat → List ShowMetadataSource → Show → Option Exc × Show × List Event
  | _, [], sh => (none, sh, [])
  | k, src :: rest, sh =>
    if src.accepts sh then
      match (src.populate sh).1 with
      | some Exc.skipShow =>
        if enable_skip_show then
          (some Exc.skipShow, (src.populate sh).2,
            [Event.acceptsShowSrcEv k sh.show_id, Event.populateShowSrcEv k sh.show_id])
        else
          ((populateShowMetadataAux enable_skip_show (k+1) rest (src.populate sh).2).1,
            (populateShowMetadataAux enable_skip_show (k+1) rest (src.populate sh).2).2.1,
            Event.acceptsShowSrcEv k sh.show_id :: Event.populateShowSrcEv k sh.show_id ::
              (populateShowMetadataAux enable_skip_show (k+1) rest (src.populate sh).2).2.2)
      | some e =>
        (some e, (src.populate sh).2,
          [Event.acceptsShowSrcEv k sh.show_id, Event.populateShowSrcEv k sh.show_id])
      | none =>
        ((populateShowMetadataAux enable_skip_show (k+1) rest (src.populate sh).2).1,
          (populateShowMetadataAux enable_skip_show (k+1) rest (src.populate sh).2).2.1,
          Event.acceptsShowSrcEv k sh.show_id :: Event.populateShowSrcEv k sh.show_id ::
            (populateShowMetadataAux enable_skip_show (k+1) rest (src.populate sh).2).2.2)
    else
      ((populateShowMetadataAux enable_skip_show (k+1) rest sh).1,
        (populateShowMetadataAux enable_skip_show (k+1) rest sh).2.1,
        Event.acceptsShowSrcEv k sh.show_id ::
          (populateShowMetadataAux enable_skip_show (k+1) rest sh).2.2)

/-- The show-level chain as `_generate_feed` invokes it (positions from 0). -/
def populateShowMetadata (enable_skip_show : Bool) (srcs : List ShowMetadataSource)
    (sh : Show) : Option Exc × Show × List Event :=
  populateShowMetadataAux enable_skip_show 0 srcs sh

/-- The episode-level source chain as iterated by
`generate_feed_with_all_episodes` (src lines 194-196) and, per the spec, by the
feed-building collaborator: for each source in order, `accepts` then
`populate`; any exception (`SkipEpisode` included) aborts the remainder of the
chain and is left to the caller. -/
def populateEpisodeMetadataAux :
    Nat → List EpisodeMetadataSource → Episode → Option Exc × Episode × List Event
  | _, [], ep => (none, ep, [])
  | k, src :: rest, ep =>
    if src.accepts ep then
      match (src.populate ep).1 with
      | some e =>
        (some e, (src.populate ep).2,
          [Event.acceptsEpisodeSrcEv k ep.sound_url, Event.populateEpisodeSrcEv k ep.sound_url])
      | none =>
        ((populateEpisodeMetadataAux (k+1) rest (src.populate ep).2).1,
          (populateEpisodeMetadataAux (k+1) rest (src.populate ep).2).2.1,
          Event.acceptsEpisodeSrcEv k ep.sound_url :: Event.populateEpisodeSrcEv k ep.sound_url ::
            (populateEpisodeMetadataAux (k+1) rest (src.populate ep).2).2.2)
    else
      ((populateEpisodeMetadataAux (k+1) rest ep).1,
        (populateEpisodeMetadataAux (k+1) rest ep).2.1,
        Event.acceptsEpisodeSrcEv k ep.sound_url ::
          (populateEpisodeMetadataAux (k+1) rest ep).2.2)

/-- A rendered feed: the populated show it is bound to and its episode
entries, standing for the serialized RSS the Python code returns. -/
structure Feed where
  sh : Show
  entries : List Episode
  deriving DecidableEq, Repr

/-- Modelled from the spec: `Show.add_episodes_to_feed(episode_source,
episode_metadata_sources)` — drives the episode chain over the show's episodes
and inserts every non-skipped episode as a feed entry; a `SkipEpisode` omits
just that episode, any other exception propagates. -/
def add_episodes_to_feed (srcs : List EpisodeMetadataSource) :
    List Episode → Option Exc × List Episode × List Event
  | [] => (none, [], [])
  | ep :: rest =>
    match (populateEpisodeMetadataAux 0 srcs ep).1 with
    | some Exc.skipEpisode =>
      ((add_episodes_to_feed srcs rest).1, (add_episodes_to_feed srcs rest).2.1,
        (populateEpisodeMetadataAux 0 srcs ep).2.2 ++ (add_episodes_to_feed srcs rest).2.2)
    | some e => (some e, [], (populateEpisodeMetadataAux 0 srcs ep).2.2)
    | none =>
      ((add_episodes_to_feed srcs rest).1,
        (populateEpisodeMetadataAux 0 srcs ep).2.1 :: (add_episodes_to_feed srcs rest).2.1,
        (populateEpisodeMetadataAux 0 srcs ep).2.2 ++ (add_episodes_to_feed srcs rest).2.2)

/-- The tail of `_generate_feed` (src lines 101-118) after show metadata
population: obtain the episode list — an empty one raises `NoEpisodesError`,
re-raised only when `skip_empty` is set — then `add_episodes_to_feed`.  `sh2`
is the show after its in-place mutations, `mevs` the trace so far, and `batch`
records whether the shared batch-prepared EpisodeSource was passed in (then
there is no per-show fetch). -/
def innerAfterMetadata (g : Generator) (sh2 : Show) (mevs : List Event)
    (skip_empty batch : Bool) : Except Exc Feed × List Event :=
  if (g.episode_list sh2).isEmpty && skip_empty then
    (Except.error Exc.noEpisodes,
      mevs ++ if batch then [] else [Event.fetchEpisodeListEv sh2.show_id])
  else
    match (add_episodes_to_feed g.episode_metadata_sources (g.episode_list sh2)).1 with
    | some e =>
      (Except.error e,
        (mevs ++ if batch then [] else [Event.fetchEpisodeListEv sh2.show_id]) ++
          (add_episodes_to_feed g.episode_metadata_sources (g.episode_list sh2)).2.2)
    | none =>
      (Except.ok ⟨sh2, (add_episodes_to_feed g.episode_metadata_sources (g.episode_list sh2)).2.1⟩,
        (mevs ++ if batch then [] else [Event.fetchEpisodeListEv sh2.show_id]) ++
          (add_episodes_to_feed g.episode_metadata_sources (g.episode_list sh2)).2.2)

/-- `PodcastFeedGenerator._generate_feed(show, skip_empty, enable_skip_show,
episode_source)` (src lines 78-118): populate show metadata honouring
`enable_skip_show` — an uncaught exception there propagates — then the
episode-list and feed-building tail. -/
def generateFeedInner (g : Generator) (sh : Show) (skip_empty : Bool)
    (enable_skip_show : Bool) (batch : Bool) : Except Exc Feed × List Event :=
  match (populateShowMetadata enable_skip_show g.show_metadata_sources sh).1 with
  | some e => (Except.error e, (populateShowMetadata enable_skip_show g.show_metadata_sources sh).2.2)
  | none =>
    innerAfterMetadata g (populateShowMetadata enable_skip_show g.show_metadata_sources sh).2.1
      (populateShowMetadata enable_skip_show g.show_metadata_sources sh).2.2 skip_empty batch

/-- `PodcastFeedGenerator.generate_feed(show_id, force=True)` (src lines
60-76): resolve the id against `ShowSource.shows` (a `KeyError` becomes
`NoSuchShowError`), then `_generate_feed(show, skip_empty=not force,
enable_skip_show=not force)` with a fresh EpisodeSource. -/
def generate_feed (g : Generator) (show_id : Nat) (force : Bool := true) :
    Except Exc Feed × List Event :=
  match List.lookup show_id g.shows with
  | none => (Except.error Exc.noSuchShow, [])
  | some sh => generateFeedInner g sh (!force) (!force) false

/-- `PodcastFeedGenerator._prepare_for_batch(es)` (src lines 151-156):
`es.populate_all_episodes_list()` — the single whole-catalog fetch — then
`prepare_batch()` on every episode-level source and then on every show-level
source, in chain order; recorded as the trace it emits. -/
def prepareForBatchEvents (g : Generator) : List Event :=
  Event.fetchAllEpisodesEv ::
    ((List.range g.episode_metadata_sources.length).map Event.prepareBatchEpisodeSrcEv ++
      (List.range g.show_metadata_sources.length).map Event.prepareBatchShowSrcEv)

/-- The per-show loop of `generate_feeds_sequence` (src lines 136-147): each
show is generated with the default policy (`skip_empty` and `enable_skip_show`
both true) and the shared batch EpisodeSource; a `NoEpisodesError` or a
`SkipShow` drops just that show from the mapping, any other exception aborts
the loop.  The mapping key is the show's identifier at insertion time. -/
def feedsLoop (g : Generator) : List Show → Except Exc (List (Nat × Feed)) × List Event
  | [] => (Except.ok [], [])
  | sh :: rest =>
    match (generateFeedInner g sh true true true).1 with
    | Except.error Exc.noEpisodes =>
      ((feedsLoop g rest).1, (generateFeedInner g sh true true true).2 ++ (feedsLoop g rest).2)
    | Except.error Exc.skipShow =>
      ((feedsLoop g rest).1, (generateFeedInner g sh true true true).2 ++ (feedsLoop g rest).2)
    | Except.error e => (Except.error e, (generateFeedInner g sh true true true).2)
    | Except.ok fd =>
      ((feedsLoop g rest).1.map (fun m => (fd.sh.show_id, fd) :: m),
        (generateFeedInner g sh true true true).2 ++ (feedsLoop g rest).2)

/-- `PodcastFeedGenerator.generate_feeds_sequence(shows)` (src lines 123-149):
one batch preparation, then the per-show loop. -/
def generate_feeds_sequence (g : Generator) (shows : List Show) :
    Except Exc (List (Nat × Feed)) × List Event :=
  ((feedsLoop g shows).1, prepareForBatchEvents g ++ (feedsLoop g shows).2)

/-- The list comprehension of `generate_feed_with_all_episodes` (src lines
186-187): every whole-catalog record whose `program_defnr` is not the orphan
sentinel 0 becomes an Episode of its owning show; a record whose show is
missing from the catalog raises `KeyError`. -/
def buildAllEpisodeEntities (g : Generator) : Except Exc (List Episode) :=
  (g.all_episodes.filter (fun r => r.program_defnr != 0)).mapM
    (fun r => match List.lookup r.program_defnr g.shows with
      | some sh => Except.ok (EpisodeSource.episode sh r)
      | none => Except.error Exc.keyError)

/-- The per-episode loop of `generate_feed_with_all_episodes` (src lines
190-206): the episode chain runs inside `try ... except SkipEpisode:
continue`, so a skip omits exactly that episode — it is neither added to the
feed nor populated as an entry — and the scan goes on with the remaining
episodes; any other exception propagates. -/
def allEpisodesLoop (srcs : List EpisodeMetadataSource) :
    List Episode → Option Exc × List Episode × List Event
  | [] => (none, [], [])
  | ep :: rest =>
    match (populateEpisodeMetadataAux 0 srcs ep).1 with
    | some Exc.skipEpisode =>
      ((allEpisodesLoop srcs rest).1, (allEpisodesLoop srcs rest).2.1,
        (populateEpisodeMetadataAux 0 srcs ep).2.2 ++ (allEpisodesLoop srcs rest).2.2)
    | some e => (some e, [], (populateEpisodeMetadataAux 0 srcs ep).2.2)
    | none =>
      ((allEpisodesLoop srcs rest).1,
        (populateEpisodeMetadataAux 0 srcs ep).2.1 :: (allEpisodesLoop srcs rest).2.1,
        (populateEpisodeMetadataAux 0 srcs ep).2.2 ++ (allEpisodesLoop srcs rest).2.2)

/-- `SETTINGS.ALL_EPISODES_FEED_TITLE`, the display title of the synthetic
whole-catalog show. -/
def ALL_EPISODES_FEED_TITLE : String := "All episodes"

/-- `PodcastFeedGenerator.generate_feed_with_all_episodes(title=None)` (src
lines 180-208): a synthetic show with identifier 0, one batch preparation,
then the per-episode loop over every non-orphan episode of the catalog. -/
def generate_feed_with_all_episodes (g : Generator) (title : Option String) :
    Except Exc Feed × List Event :=
  match buildAllEpisodeEntities g with
  | Except.error e => (Except.error e, prepareForBatchEvents g)
  | Except.ok eps =>
    match (allEpisodesLoop g.episode_metadata_sources eps).1 with
    | some e =>
      (Except.error e,
        prepareForBatchEvents g ++ (allEpisodesLoop g.episode_metadata_sources eps).2.2)
    | none =>
      (Except.ok ⟨⟨title.getD ALL_EPISODES_FEED_TITLE, 0, []⟩,
          (allEpisodesLoop g.episode_metadata_sources eps).2.1⟩,
        prepareForBatchEvents g ++ (allEpisodesLoop g.episode_metadata_sources eps).2.2)

/-- True exactly for the batch-preparation calls: the whole-catalog fetch and
every `prepare_batch`. -/
def Event.isBatchPrep : Event → Bool
  | Event.fetchAllEpisodesEv => true
  | Event.prepareBatchEpisodeSrcEv _ => true
  | Event.prepareBatchShowSrcEv _ => true
  | _ => false

/-- True exactly for a `populate` call on either chain. -/
def Event.isPopulateCall : Event → Bool
  | Event.populateShowSrcEv _ _ => true
  | Event.populateEpisodeSrcEv _ _ => true
  | _ => false

/-- Every `populate` call in the trace is immediately preceded by the
`accepts` call of the same source on the same entity. -/
def chainCallsOk : List Event → Bool
  | [] => true
  | Event.acceptsShowSrcEv i sid :: Event.populateShowSrcEv j tid :: rest =>
    decide (i = j) && decide (sid = tid) && chainCallsOk rest
  | Event.acceptsEpisodeSrcEv i u :: Event.populateEpisodeSrcEv j v :: rest =>
    decide (i = j) && decide (u = v) && chainCallsOk rest
  | Event.populateShowSrcEv _ _ :: _ => false
  | Event.populateEpisodeSrcEv _ _ :: _ => false
  | _ :: rest => chainCallsOk rest

/-- The chain positions on which a show-level `accepts` was called, in trace
order. -/
def consultedShowIdx (tr : List Event) : List Nat :=
  tr.filterMap (fun e => match e with
    | Event.acceptsShowSrcEv i _ => some i
    | _ => none)

/-- The chain positions on which an episode-level `accepts` was called, in
trace order. -/
def consultedEpisodeIdx (tr : List Event) : List Nat :=
  tr.filterMap (fun e => match e with
    | Event.acceptsEpisodeSrcEv i _ => some i
    | _ => none)

/-- No show-level `populate` call in the trace names a show identifier in the
corresponding source's bypass set (`k` is the chain position of the first
source of `srcs`). -/
def noBypassedShowPopulate (k : Nat) (srcs : List ShowMetadataSource)
    (tr : List Event) : Bool :=
  tr.all (fun e => match e with
    | Event.populateShowSrcEv i sid =>
      match srcs.get? (i - k) with
      | some src => !(decide (sid ∈ src.bypass))
      | none => true
    | _ => true)

/-- No episode-level `populate` call in the trace names a sound URL in the
corresponding source's bypass set. -/
def noBypassedEpisodePopulate (k : Nat) (srcs : List EpisodeMetadataSource)
    (tr : List Event) : Bool :=
  tr.all (fun e => match e with
    | Event.populateEpisodeSrcEv i url =>
      match srcs.get? (i - k) with
      | some src => !(decide (url ∈ src.bypass))
      | none => true
    | _ => true)

/-! Concrete fixtures used by the witness theorems. -/

/-- A show-level source that accepts every show and mutates nothing. -/
def benignShowSrc : ShowMetadataSource :=
  { bypass := [], accepts := fun _ => true, populate := fun s => (none, s) }

/-- A show-level source that accepts every show and raises `SkipShow`. -/
def skippingShowSrc : ShowMetadataSource :=
  { bypass := [], accepts := fun _ => true, populate := fun s => (some Exc.skipShow, s) }

/-- A show-level source that accepts every show and fails with a non-skip
error. -/
def crashingShowSrc : ShowMetadataSource :=
  { bypass := [], accepts := fun _ => true, populate := fun s => (some (Exc.other 7), s) }

/-- A show-level source that tags every show it populates. -/
def taggingShowSrc : ShowMetadataSource :=
  { bypass := [], accepts := fun _ => true,
    populate := fun s => (none, { s with fields := ("tag", "on") :: s.fields }) }

/-- A show-level source that marks the show and then raises `SkipShow`. -/
def skipAfterMarkShowSrc : ShowMetadataSource :=
  { bypass := [], accepts := fun _ => true,
    populate := fun s => (some Exc.skipShow, { s with fields := ("late", "x") :: s.fields }) }

/-- An episode-level source that accepts every episode and mutates nothing. -/
def benignEpisodeSrc : EpisodeMetadataSource :=
  { bypass := [], accepts := fun _ => true, populate := fun e => (none, e) }

/-- An episode-level source that skips every episode titled `DELETED`. -/
def deletedSkipEpisodeSrc : EpisodeMetadataSource :=
  { bypass := [], accepts := fun _ => true,
    populate := fun e =>
      (if e.title = "DELETED" then (some Exc.skipEpisode, e) else (none, e)) }

/-- A show-level source whose `accepts` honours its bypass set. -/
def bypassShowSrc : ShowMetadataSource :=
  { bypass := [1], accepts := fun s => !(decide (s.show_id ∈ ([1] : List Nat))),
    populate := fun s => (none, s) }

/-- An episode-level source whose `accepts` honours its bypass set. -/
def bypassEpisodeSrc : EpisodeMetadataSource :=
  { bypass := ["u1"], accepts := fun e => !(decide (e.sound_url ∈ (["u1"] : List String))),
    populate := fun e => (none, e) }

/-- A one-episode-per-show catalog entry used by witnesses. -/
def showA : Show := { title := "A", show_id := 1 }

/-- A second catalog show used by witnesses. -/
def showB : Show := { title := "B", show_id := 2 }

/-- A concrete episode entity. -/
def epX : Episode := { show_id := 1, title := "Ep1", sound_url := "u1" }

/-- A concrete episode the skipping source drops. -/
def epDeleted : Episode := { show_id := 1, title := "DELETED", sound_url := "u2" }

/-- A concrete raw whole-catalog record. -/
def rawX : RawEpisode := { program_defnr := 1, title := "Ep1", sound_url := "u1" }

/-- A generator whose only show-level source always skips. -/
def gSkip : Generator :=
  { shows := [(1, showA)], get_show_names := [("A", showA)],
    show_metadata_sources := [skippingShowSrc], episode_metadata_sources := [],
    all_episodes := [] }

/-- A generator whose only show-level source fails with a non-skip error. -/
def gCrash : Generator :=
  { shows := [(1, showA)], get_show_names := [("A", showA)],
    show_metadata_sources := [crashingShowSrc], episode_metadata_sources := [],
    all_episodes := [] }

/-- A generator with benign sources and one catalog episode. -/
def gBenign : Generator :=
  { shows := [(1, showA)], get_show_names := [("A", showA)],
    show_metadata_sources := [benignShowSrc], episode_metadata_sources := [benignEpisodeSrc],
    all_episodes := [rawX] }

/-- A generator whose show chain tags and then skips. -/
def gTag : Generator :=
  { shows := [(1, showA)], get_show_names := [("A", showA)],
    show_metadata_sources := [taggingShowSrc, skipAfterMarkShowSrc],
    episode_metadata_sources := [], all_episodes := [] }

/-- Two shows whose display titles collide once lowercased and stripped of
non-alphanumeric characters. -/
def showAB1 : Show := { title := "A B", show_id := 1 }

/-- The later colliding show. -/
def showAB2 : Show := { title := "a-b!", show_id := 2 }

/-- A generator whose name table has the colliding titles, `showAB2` last. -/
def gNames : Generator :=
  { shows := [(1, showAB1), (2, showAB2)],
    get_show_names := [("A B", showAB1), ("a-b!", showAB2)],
    show_metadata_sources := [], episode_metadata_sources := [], all_episodes := [] }

/-- A generator whose single show's display title contains a space. -/
def gSpace : Generator :=
  { shows := [(1, showAB1)], get_show_names := [("A B", showAB1)],
    show_metadata_sources := [], episode_metadata_sources := [], all_episodes := [] }

/-! Evaluation lemmas for the event classifiers. -/

@[simp] theorem isBatchPrep_fetchAll : Event.fetchAllEpisodesEv.isBatchPrep = true := rfl

@[simp] theorem isBatchPrep_fetchList (sid : Nat) :
    (Event.fetchEpisodeListEv sid).isBatchPrep = false := rfl

@[simp] theorem isBatchPrep_prepEp (i : Nat) :
    (Event.prepareBatchEpisodeSrcEv i).isBatchPrep = true := rfl

@[simp] theorem isBatchPrep_prepSh (i : Nat) :
    (Event.prepareBatchShowSrcEv i).isBatchPrep = true := rfl

@[simp] theorem isBatchPrep_accS (i sid : Nat) :
    (Event.acceptsShowSrcEv i sid).isBatchPrep = false := rfl

@[simp] theorem isBatchPrep_popS (i sid : Nat) :
    (Event.populateShowSrcEv i sid).isBatchPrep = false := rfl

@[simp] theorem isBatchPrep_accE (i : Nat) (u : String) :
    (Event.acceptsEpisodeSrcEv i u).isBatchPrep = false := rfl

@[simp] theorem isBatchPrep_popE (i : Nat) (u : String) :
    (Event.populateEpisodeSrcEv i u).isBatchPrep = false := rfl

@[simp] theorem isPopulateCall_fetchAll : Event.fetchAllEpisodesEv.isPopulateCall = false := rfl

@[simp] theorem isPopulateCall_fetchList (sid : Nat) :
    (Event.fetchEpisodeListEv sid).isPopulateCall = false := rfl

@[simp] theorem isPopulateCall_prepEp (i : Nat) :
    (Event.prepareBatchEpisodeSrcEv i).isPopulateCall = false := rfl

@[simp] theorem isPopulateCall_prepSh (i : Nat) :
    (Event.prepareBatchShowSrcEv i).isPopulateCall = false := rfl

@[simp] theorem isPopulateCall_accS (i sid : Nat) :
    (Event.acceptsShowSrcEv i sid).isPopulateCall = false := rfl

@[simp] theorem isPopulateCall_popS (i sid : Nat) :
    (Event.populateShowSrcEv i sid).isPopulateCall = true := rfl

@[simp] theorem isPopulateCall_accE (i : Nat) (u : String) :
    (Event.acceptsEpisodeSrcEv i u).isPopulateCall = false := rfl

@[simp] theorem isPopulateCall_popE (i : Nat) (u : String) :
    (Event.populateEpisodeSrcEv i u).isPopulateCall = true := rfl

/-! Claim theorems. -/

/-- C7: for every show identifier not present in the ShowSource catalog,
`generate_feed` raises `NoSuchShowError` for either value of `force`, surfaced
directly to the caller: no feed is produced and no metadata source is invoked
(the trace is empty). -/
theorem c7_unknown_show_id (g : Generator) (sid : Nat) (force : Bool)
    (h : List.lookup sid g.shows = none) :
    generate_feed g sid force = (Except.error Exc.noSuchShow, ([] : List Event)) := by
  simp [generate_feed, h]

/-- C7 witness: `generateFeed(3, force=true)` on a catalog holding only show 1
fails with `NoSuchShowError` and an empty trace. -/
theorem c7_unknown_show_id_witness :
    List.lookup 3 gSkip.shows = none ∧
      generate_feed gSkip 3 true = (Except.error Exc.noSuchShow, ([] : List Event)) :=
  ⟨rfl, c7_unknown_show_id gSkip 3 true rfl⟩

/-- C1: in the batch loop of `generate_feeds_sequence`, a show whose
processing raises `NoEpisodesError` or `SkipShow` is silently omitted from the
result mapping (the result equals that of the remaining shows) and the batch
continues, while any other exception propagates to the caller and aborts the
whole batch. -/
theorem c1_batch_skip_vs_abort (g : Generator) (sh : Show) (rest : List Show) (e : Exc)
    (h : (generateFeedInner g sh true true true).1 = Except.error e) :
    ((e = Exc.noEpisodes ∨ e = Exc.skipShow) →
        (feedsLoop g (sh :: rest)).1 = (feedsLoop g rest).1 ∧
          (generate_feeds_sequence g (sh :: rest)).1 = (generate_feeds_sequence g rest).1) ∧
      (e ≠ Exc.noEpisodes → e ≠ Exc.skipShow →
        (feedsLoop g (sh :: rest)).1 = Except.error e ∧
          (generate_feeds_sequence g (sh :: rest)).1 = Except.error e) := by
  constructor
  · rintro (rfl | rfl) <;>
      exact ⟨by simp [feedsLoop, h], by simp [generate_feeds_sequence, feedsLoop, h]⟩
  · intro h1 h2
    have hfl : (feedsLoop g (sh :: rest)).1 = Except.error e := by
      cases e <;> simp_all [feedsLoop, h]
    exact ⟨hfl, by simpa [generate_feeds_sequence] using hfl⟩

/-- C1 witness: a skipping show-level source drops the show (the batch result
equals the batch without it), while a source failing with a non-skip error
aborts the whole batch with that error. -/
theorem c1_batch_skip_vs_abort_witness :
    ((generateFeedInner gSkip showA true true true).1 = Except.error Exc.skipShow ∧
        (feedsLoop gSkip [showA]).1 = (feedsLoop gSkip []).1 ∧
        (generate_feeds_sequence gSkip [showA]).1 = (generate_feeds_sequence gSkip []).1) ∧
      ((generateFeedInner gCrash showA true true true).1 = Except.error (Exc.other 7) ∧
        (feedsLoop gCrash [showA]).1 = Except.error (Exc.other 7) ∧
        (generate_feeds_sequence gCrash [showA]).1 = Except.error (Exc.other 7)) :=
  ⟨⟨rfl, (c1_batch_skip_vs_abort gSkip showA [] Exc.skipShow rfl).1 (Or.inr rfl)⟩,
    ⟨rfl, (c1_batch_skip_vs_abort gCrash showA [] (Exc.other 7) rfl).2
      (by decide) (by decide)⟩⟩

/-- C10: when a show-level source raises `SkipShow` with skipping enabled
(batch mode), the mutations earlier sources already applied in place to the
show persist in the state the exception leaves behind (no rollback), even
though the show is then omitted from the batch result mapping. -/
theorem c10_no_rollback_on_skip (g : Generator) (src1 src2 : ShowMetadataSource)
    (rest2 : List ShowMetadataSource) (sh s1 s2 : Show) (rest : List Show)
    (h1 : src1.accepts sh = true) (h2 : src1.populate sh = (none, s1))
    (h3 : src2.accepts s1 = true) (h4 : src2.populate s1 = (some Exc.skipShow, s2))
    (hg : g.show_metadata_sources = src1 :: src2 :: rest2) :
    populateShowMetadata true (src1 :: src2 :: rest2) sh =
        (some Exc.skipShow, s2,
          [Event.acceptsShowSrcEv 0 sh.show_id, Event.populateShowSrcEv 0 sh.show_id,
            Event.acceptsShowSrcEv 1 s1.show_id, Event.populateShowSrcEv 1 s1.show_id]) ∧
      (feedsLoop g (sh :: rest)).1 = (feedsLoop g rest).1 := by
  constructor
  · simp [populateShowMetadata, populateShowMetadataAux, h1, h2, h3, h4]
  · have hr : (generateFeedInner g sh true true true).1 = Except.error Exc.skipShow := by
      simp [generateFeedInner, hg, populateShowMetadata, populateShowMetadataAux,
        h1, h2, h3, h4]
    simp [feedsLoop, hr]

/-- C10 witness: a tagging source's field write survives the second source's
`SkipShow`, and the show is dropped from the batch mapping. -/
theorem c10_no_rollback_on_skip_witness :
    populateShowMetadata true (taggingShowSrc :: skipAfterMarkShowSrc :: []) showA =
        (some Exc.skipShow,
          { title := "A", show_id := 1, fields := [("late", "x"), ("tag", "on")] },
          [Event.acceptsShowSrcEv 0 1, Event.populateShowSrcEv 0 1,
            Event.acceptsShowSrcEv 1 1, Event.populateShowSrcEv 1 1]) ∧
      (feedsLoop gTag [showA]).1 = (feedsLoop gTag []).1 :=
  c10_no_rollback_on_skip gTag taggingShowSrc skipAfterMarkShowSrc [] showA
    { title := "A", show_id := 1, fields := [("tag", "on")] }
    { title := "A", show_id := 1, fields := [("late", "x"), ("tag", "on")] }
    [] rfl rfl rfl rfl rfl

/-- A show-level chain whose sources at worst raise `SkipShow` completes
without an exception when skipping is disabled (forced mode). -/
theorem showChain_none_of_skipOnly (k : Nat) (srcs : List ShowMetadataSource) (sh : Show)
    (h : ∀ src ∈ srcs, ∀ s : Show,
      (src.populate s).1 = none ∨ (src.populate s).1 = some Exc.skipShow) :
    (populateShowMetadataAux false k srcs sh).1 = none := by
  revert h
  induction srcs generalizing k sh with
  | nil => intro h; simp [populateShowMetadataAux]
  | cons src rest ih =>
    intro h
    have hr : ∀ src2 ∈ rest, ∀ s : Show,
        (src2.populate s).1 = none ∨ (src2.populate s).1 = some Exc.skipShow :=
      fun src2 hm => h src2 (List.mem_cons_of_mem _ hm)
    cases ha : src.accepts sh
    · simpa [populateShowMetadataAux, ha] using ih (k+1) sh hr
    · rcases h src (List.mem_cons_self _ _) sh with hp | hp <;>
        simpa [populateShowMetadataAux, ha, hp] using ih (k+1) (src.populate sh).2 hr

/-- A show-level chain whose sources at worst raise `SkipShow` either
completes or raises `SkipShow` when skipping is enabled (batch mode). -/
theorem showChain_skipOnly_cases (k : Nat) (srcs : List ShowMetadataSource) (sh : Show)
    (h : ∀ src ∈ srcs, ∀ s : Show,
      (src.populate s).1 = none ∨ (src.populate s).1 = some Exc.skipShow) :
    (populateShowMetadataAux true k srcs sh).1 = none ∨
      (populateShowMetadataAux true k srcs sh).1 = some Exc.skipShow := by
  revert h
  induction srcs generalizing k sh with
  | nil => intro h; left; simp [populateShowMetadataAux]
  | cons src rest ih =>
    intro h
    have hr : ∀ src2 ∈ rest, ∀ s : Show,
        (src2.populate s).1 = none ∨ (src2.populate s).1 = some Exc.skipShow :=
      fun src2 hm => h src2 (List.mem_cons_of_mem _ hm)
    cases ha : src.accepts sh
    · simpa [populateShowMetadataAux, ha] using ih (k+1) sh hr
    · rcases h src (List.mem_cons_self _ _) sh with hp | hp
      · simpa [populateShowMetadataAux, ha, hp] using ih (k+1) (src.populate sh).2 hr
      · right; simp [populateShowMetadataAux, ha, hp]

/-- A chain whose sources keep `show_id` unchanged preserves the show's
identifier, whatever the skip policy and outcome. -/
theorem showChain_preserves_id (enable : Bool) (k : Nat)
    (srcs : List ShowMetadataSource) (sh : Show)
    (h : ∀ src ∈ srcs, ∀ s : Show, ((src.populate s).2).show_id = s.show_id) :
    ((populateShowMetadataAux enable k srcs sh).2.1).show_id = sh.show_id := by
  revert h
  induction srcs generalizing k sh with
  | nil => intro h; simp [populateShowMetadataAux]
  | cons src rest ih =>
    intro h
    have hr : ∀ src2 ∈ rest, ∀ s : Show, ((src2.populate s).2).show_id = s.show_id :=
      fun src2 hm => h src2 (List.mem_cons_of_mem _ hm)
    have hsrc := h src (List.mem_cons_self _ _)
    cases ha : src.accepts sh
    · simpa [populateShowMetadataAux, ha] using ih (k+1) sh hr
    · have hih := ih (k+1) (src.populate sh).2 hr
      rcases hp : (src.populate sh).1 with _ | e
      · simp [populateShowMetadataAux, ha, hp, hih, hsrc sh]
      · cases e <;> cases enable <;>
          simp [populateShowMetadataAux, ha, hp, hih, hsrc sh]

/-- Forced single-show generation under skip-only sources and an empty
episode list yields the empty feed bound to the fully populated show. -/
theorem forced_ok_empty (g : Generator) (sid : Nat) (sh : Show)
    (hlk : List.lookup sid g.shows = some sh) (hsid : sh.show_id = sid)
    (hpres : ∀ src ∈ g.show_metadata_sources, ∀ s : Show,
      ((src.populate s).2).show_id = s.show_id)
    (hskip : ∀ src ∈ g.show_metadata_sources, ∀ s : Show,
      (src.populate s).1 = none ∨ (src.populate s).1 = some Exc.skipShow)
    (hno : g.all_episodes.filter (fun r => r.program_defnr == sid) = []) :
    (generate_feed g sid true).1 =
      Except.ok ⟨(populateShowMetadata false g.show_metadata_sources sh).2.1, []⟩ := by
  have hcn := showChain_none_of_skipOnly 0 g.show_metadata_sources sh hskip
  have hid := showChain_preserves_id false 0 g.show_metadata_sources sh hpres
  have hel : g.episode_list
      (populateShowMetadataAux false 0 g.show_metadata_sources sh).2.1 = [] := by
    simp [Generator.episode_list, hid, hsid, hno]
  simp [generate_feed, hlk, generateFeedInner, innerAfterMetadata, populateShowMetadata,
    hcn, hel, add_episodes_to_feed]

/-- C3: for a show present in the catalog, `generate_feed(show_id,
force=True)` succeeds even with zero episodes (an empty feed is produced) and
even when a show-level source raises `SkipShow` (the signal is suppressed and
the show is processed anyway); with `force=False`, a `SkipShow` of the chain
and the empty-episode condition each propagate as failures to the caller. -/
theorem c3_force_policy (g : Generator) (sid : Nat) (sh : Show)
    (hlk : List.lookup sid g.shows = some sh) (hsid : sh.show_id = sid)
    (hpres : ∀ src ∈ g.show_metadata_sources, ∀ s : Show,
      ((src.populate s).2).show_id = s.show_id)
    (hskip : ∀ src ∈ g.show_metadata_sources, ∀ s : Show,
      (src.populate s).1 = none ∨ (src.populate s).1 = some Exc.skipShow)
    (hno : g.all_episodes.filter (fun r => r.program_defnr == sid) = []) :
    (generate_feed g sid true).1 =
        Except.ok ⟨(populateShowMetadata false g.show_metadata_sources sh).2.1, []⟩ ∧
      ((populateShowMetadata true g.show_metadata_sources sh).1 = some Exc.skipShow →
        (generate_feed g sid false).1 = Except.error Exc.skipShow) ∧
      ((populateShowMetadata true g.show_metadata_sources sh).1 = none →
        (generate_feed g sid false).1 = Except.error Exc.noEpisodes) := by
  refine ⟨forced_ok_empty g sid sh hlk hsid hpres hskip hno, ?_, ?_⟩
  · intro hcs
    simp only [populateShowMetadata] at hcs
    simp [generate_feed, hlk, generateFeedInner, populateShowMetadata, hcs]
  · intro hcnone
    simp only [populateShowMetadata] at hcnone
    have hid2 := showChain_preserves_id true 0 g.show_metadata_sources sh hpres
    have hel2 : g.episode_list
        (populateShowMetadataAux true 0 g.show_metadata_sources sh).2.1 = [] := by
      simp [Generator.episode_list, hid2, hsid, hno]
    simp [generate_feed, hlk, generateFeedInner, innerAfterMetadata, populateShowMetadata,
      hcnone, hel2]

/-- C3 witness: on a catalog whose single show has an always-skipping source
and no episodes, `generateFeed(1, force=true)` yields the empty feed while
`force=false` surfaces the `SkipShow`. -/
theorem c3_force_policy_witness :
    ((generate_feed gSkip 1 true).1 =
        Except.ok ⟨(populateShowMetadata false gSkip.show_metadata_sources showA).2.1, []⟩ ∧
      ((populateShowMetadata true gSkip.show_metadata_sources showA).1 = some Exc.skipShow →
        (generate_feed gSkip 1 false).1 = Except.error Exc.skipShow) ∧
      ((populateShowMetadata true gSkip.show_metadata_sources showA).1 = none →
        (generate_feed gSkip 1 false).1 = Except.error Exc.noEpisodes)) ∧
      (generate_feed gSkip 1 false).1 = Except.error Exc.skipShow :=
  have h := c3_force_policy gSkip 1 showA rfl rfl
    (by intro src hm s; simp only [gSkip, List.mem_singleton] at hm; subst hm; rfl)
    (by intro src hm s; simp only [gSkip, List.mem_singleton] at hm; subst hm;
        exact Or.inr rfl)
    rfl
  ⟨h, h.2.1 rfl⟩

/-- C8: the `force` parameter of `generate_feed` defaults to true, so a bare
`generate_feed g sid` runs in forced mode — a zero-episode show yields an
empty feed rather than `NoEpisodesError` and a `SkipShow` is suppressed —
while the per-show policy inside `generate_feeds_sequence` omits the very same
show from the batch mapping. -/
theorem c8_force_defaults_true (g : Generator) (sid : Nat) (sh : Show) (rest : List Show)
    (hlk : List.lookup sid g.shows = some sh) (hsid : sh.show_id = sid)
    (hpres : ∀ src ∈ g.show_metadata_sources, ∀ s : Show,
      ((src.populate s).2).show_id = s.show_id)
    (hskip : ∀ src ∈ g.show_metadata_sources, ∀ s : Show,
      (src.populate s).1 = none ∨ (src.populate s).1 = some Exc.skipShow)
    (hno : g.all_episodes.filter (fun r => r.program_defnr == sid) = []) :
    generate_feed g sid = generate_feed g sid true ∧
      (generate_feed g sid).1 =
        Except.ok ⟨(populateShowMetadata false g.show_metadata_sources sh).2.1, []⟩ ∧
      (feedsLoop g (sh :: rest)).1 = (feedsLoop g rest).1 := by
  refine ⟨rfl, forced_ok_empty g sid sh hlk hsid hpres hskip hno, ?_⟩
  have hid2 := showChain_preserves_id true 0 g.show_metadata_sources sh hpres
  have hel2 : g.episode_list
      (populateShowMetadataAux true 0 g.show_metadata_sources sh).2.1 = [] := by
    simp [Generator.episode_list, hid2, hsid, hno]
  rcases showChain_skipOnly_cases 0 g.show_metadata_sources sh hskip with hc | hc
  · have hr : (generateFeedInner g sh true true true).1 = Except.error Exc.noEpisodes := by
      simp [generateFeedInner, innerAfterMetadata, populateShowMetadata, hc, hel2]
    simp [feedsLoop, hr]
  · have hr : (generateFeedInner g sh true true true).1 = Except.error Exc.skipShow := by
      simp [generateFeedInner, populateShowMetadata, hc]
    simp [feedsLoop, hr]

/-- C8 witness: with no `force` argument, show 1 of the skip-only zero-episode
catalog gets an empty feed, and the same show is dropped by the batch loop. -/
theorem c8_force_defaults_true_witness :
    generate_feed gSkip 1 = generate_feed gSkip 1 true ∧
      (generate_feed gSkip 1).1 =
        Except.ok ⟨(populateShowMetadata false gSkip.show_metadata_sources showA).2.1, []⟩ ∧
      (feedsLoop gSkip (showA :: [])).1 = (feedsLoop gSkip []).1 :=
  c8_force_defaults_true gSkip 1 showA [] rfl rfl
    (by intro src hm s; simp only [gSkip, List.mem_singleton] at hm; subst hm; rfl)
    (by intro src hm s; simp only [gSkip, List.mem_singleton] at hm; subst hm;
        exact Or.inr rfl)
    rfl

/-- C5: in `generate_feed_with_all_episodes`, a `SkipEpisode` raised by an
episode-level source aborts the remainder of the chain for that episode (the
result does not depend on the subsequent sources, which are not consulted) and
causes exactly that episode to be omitted from the feed — it is neither added
nor populated as an entry — while the remaining episodes are processed in
order. -/
theorem c5_skip_episode_per_item (srcs rest2 : List EpisodeMetadataSource)
    (src : EpisodeMetadataSource) (k : Nat) (ep : Episode) (rest : List Episode)
    (h1 : src.accepts ep = true) (h2 : (src.populate ep).1 = some Exc.skipEpisode)
    (h3 : (populateEpisodeMetadataAux 0 srcs ep).1 = some Exc.skipEpisode) :
    populateEpisodeMetadataAux k (src :: rest2) ep =
        (some Exc.skipEpisode, (src.populate ep).2,
          [Event.acceptsEpisodeSrcEv k ep.sound_url,
            Event.populateEpisodeSrcEv k ep.sound_url]) ∧
      (allEpisodesLoop srcs (ep :: rest)).1 = (allEpisodesLoop srcs rest).1 ∧
      (allEpisodesLoop srcs (ep :: rest)).2.1 = (allEpisodesLoop srcs rest).2.1 ∧
      (allEpisodesLoop srcs (ep :: rest)).2.2 =
        (populateEpisodeMetadataAux 0 srcs ep).2.2 ++ (allEpisodesLoop srcs rest).2.2 := by
  refine ⟨?_, ?_, ?_, ?_⟩
  · simp [populateEpisodeMetadataAux, h1, h2]
  all_goals simp [allEpisodesLoop, h3]

/-- C5 witness: with a chain that skips episodes titled `DELETED`, the feed
over `[DELETED, Ep1]` keeps exactly `Ep1`. -/
theorem c5_skip_episode_per_item_witness :
    populateEpisodeMetadataAux 0 [deletedSkipEpisodeSrc] epDeleted =
        (some Exc.skipEpisode, epDeleted,
          [Event.acceptsEpisodeSrcEv 0 "u2", Event.populateEpisodeSrcEv 0 "u2"]) ∧
      (allEpisodesLoop [deletedSkipEpisodeSrc] (epDeleted :: [epX])).1 =
        (allEpisodesLoop [deletedSkipEpisodeSrc] [epX]).1 ∧
      (allEpisodesLoop [deletedSkipEpisodeSrc] (epDeleted :: [epX])).2.1 =
        (allEpisodesLoop [deletedSkipEpisodeSrc] [epX]).2.1 ∧
      (allEpisodesLoop [deletedSkipEpisodeSrc] (epDeleted :: [epX])).2.2 =
        (populateEpisodeMetadataAux 0 [deletedSkipEpisodeSrc] epDeleted).2.2 ++
          (allEpisodesLoop [deletedSkipEpisodeSrc] [epX]).2.2 :=
  c5_skip_episode_per_item [deletedSkipEpisodeSrc] [] deletedSkipEpisodeSrc 0 epDeleted
    [epX] rfl rfl rfl

/-- The last stored entry whose normalized display name equals the lowercased
query wins the dict-comprehension lookup of `get_show_id_by_name`. -/
theorem lookup_last_match (g : Generator) (q : String) (n : String) (s : Show)
    (pre post : List (String × Show))
    (hsplit : g.get_show_names = pre ++ (n, s) :: post)
    (hn : re_remove_chars_sub_lower n = py_lower q)
    (hpost : ∀ p ∈ post, re_remove_chars_sub_lower p.1 ≠ py_lower q) :
    get_show_id_by_name g q = Except.ok s.show_id := by
  have hnone : ((post.map (fun p => (re_remove_chars_sub_lower p.1, p.2))).reverse.find?
      (fun p => p.1 == py_lower q)) = none := by
    rw [List.find?_eq_none]
    intro x hx
    rw [List.mem_reverse] at hx
    rcases List.mem_map.mp hx with ⟨p, hp, rfl⟩
    simpa using hpost p hp
  simp [get_show_id_by_name, hsplit, List.find?_append, hnone, hn]

/-- A successful lookup returns the identifier of some stored show whose
normalized display name equals the lowercased query. -/
theorem lookup_ok_mem (g : Generator) (q : String) (sid : Nat)
    (h : get_show_id_by_name g q = Except.ok sid) :
    ∃ p ∈ g.get_show_names,
      re_remove_chars_sub_lower p.1 = py_lower q ∧ p.2.show_id = sid := by
  unfold get_show_id_by_name at h
  split at h
  · rename_i x hf
    injection h with hid
    have hxp := List.find?_some hf
    have hxm := List.mem_of_find?_eq_some hf
    rw [List.mem_reverse] at hxm
    rcases List.mem_map.mp hxm with ⟨p, hp, rfl⟩
    exact ⟨p, hp, by simpa using hxp, hid⟩
  · simp at h

/-- The lookup depends on the query only through its lowercased form. -/
theorem lookup_congr_lower (g : Generator) (q q2 : String)
    (h : py_lower q = py_lower q2) :
    get_show_id_by_name g q = get_show_id_by_name g q2 := by
  unfold get_show_id_by_name
  rw [h]

/-- C4 counterexample: show 1's display title is exactly `A B`, yet querying
that very title — equal to the title up to case and punctuation — fails with
`NoSuchShowError`, because the code strips non-alphanumeric characters from
the stored titles only, never from the query. -/
theorem c4_counterexample_query_not_stripped :
    gSpace.get_show_names = [("A B", showAB1)] ∧ showAB1.show_id = 1 ∧
      get_show_id_by_name gSpace "A B" = Except.error Exc.noSuchShow :=
  ⟨rfl, rfl, rfl⟩

/-- C4 (amended): the comparison is asymmetric — the query is only lowercased
while the stored titles are lowercased and stripped of non-alphanumeric
characters.  A query whose lowercased form equals a show's normalized title
(with no later entry normalizing to the same key) resolves to that show's
identifier; a query whose lowercased form equals no stored title's normalized
form raises `NoSuchShowError`. -/
theorem c4_amended_lookup (g : Generator) (q q2 n : String) (s : Show)
    (pre post : List (String × Show))
    (hsplit : g.get_show_names = pre ++ (n, s) :: post)
    (hn : re_remove_chars_sub_lower n = py_lower q)
    (hpost : ∀ p ∈ post, re_remove_chars_sub_lower p.1 ≠ py_lower q)
    (hmiss : ∀ p ∈ g.get_show_names, re_remove_chars_sub_lower p.1 ≠ py_lower q2) :
    get_show_id_by_name g q = Except.ok s.show_id ∧
      get_show_id_by_name g q2 = Except.error Exc.noSuchShow := by
  refine ⟨lookup_last_match g q n s pre post hsplit hn hpost, ?_⟩
  have hnone : ((g.get_show_names.map
      (fun p => (re_remove_chars_sub_lower p.1, p.2))).reverse.find?
      (fun p => p.1 == py_lower q2)) = none := by
    rw [List.find?_eq_none]
    intro x hx
    rw [List.mem_reverse] at hx
    rcases List.mem_map.mp hx with ⟨p, hp, rfl⟩
    simpa using hmiss p hp
  simp [get_show_id_by_name, hnone]

/-- C4 witness: the already-normalized query `AB` finds the show titled `A B`,
while the verbatim title `A B` (lowercased to `a b`) matches nothing. -/
theorem c4_amended_lookup_witness :
    get_show_id_by_name gSpace "AB" = Except.ok showAB1.show_id ∧
      get_show_id_by_name gSpace "A B" = Except.error Exc.noSuchShow :=
  c4_amended_lookup gSpace "AB" "A B" "A B" showAB1 [] [] rfl (by decide)
    (by intro p hp; cases hp)
    (by intro p hp; simp only [gSpace, List.mem_singleton] at hp; subst hp; decide)

/-- C9: when two stored display titles collide after lowercasing and removal
of non-alphanumeric characters, the normalized name resolves to the show whose
entry is written last while building the lookup mapping, and the earlier show
is unreachable by name lookup (no query returns its identifier when no other
entry carries it). -/
theorem c9_last_writer_wins (g : Generator) (q q2 : String) (n1 n2 : String)
    (s1 s2 : Show) (pre mid post : List (String × Show))
    (hsplit : g.get_show_names = (pre ++ (n1, s1) :: mid) ++ (n2, s2) :: post)
    (hn1 : re_remove_chars_sub_lower n1 = py_lower q)
    (hn2 : re_remove_chars_sub_lower n2 = py_lower q)
    (hpost : ∀ p ∈ post, re_remove_chars_sub_lower p.1 ≠ py_lower q)
    (honce : ∀ p ∈ (pre ++ mid) ++ (n2, s2) :: post, p.2.show_id ≠ s1.show_id) :
    get_show_id_by_name g q = Except.ok s2.show_id ∧
      get_show_id_by_name g q2 ≠ Except.ok s1.show_id := by
  have h1 := lookup_last_match g q n2 s2 (pre ++ (n1, s1) :: mid) post hsplit hn2 hpost
  refine ⟨h1, ?_⟩
  intro hco
  rcases lookup_ok_mem g q2 s1.show_id hco with ⟨p, hp, hkey, hid⟩
  rw [hsplit] at hp
  rcases List.mem_append.mp hp with hpL | hpR
  · rcases List.mem_append.mp hpL with hppre | hpc
    · exact honce p (by simp [hppre]) hid
    · rcases List.mem_cons.mp hpc with hp3 | hpmid
      · subst hp3
        have hq : py_lower q2 = py_lower q := by rw [← hkey]; exact hn1
        have hcongr := lookup_congr_lower g q2 q hq
        rw [hcongr, h1] at hco
        injection hco with hco2
        exact honce (n2, s2) (by simp) hco2
      · exact honce p (by simp [hpmid]) hid
  · rcases List.mem_cons.mp hpR with hp4 | hppost
    · subst hp4
      exact honce (n2, s2) (by simp) hid
    · exact honce p (by simp [hppost]) hid

/-- C9 witness: `A B` and `a-b!` both normalize to `ab`; the query `AB`
resolves to show 2 (the later entry) and no query reaches show 1. -/
theorem c9_last_writer_wins_witness :
    get_show_id_by_name gNames "AB" = Except.ok showAB2.show_id ∧
      get_show_id_by_name gNames "A B" ≠ Except.ok showAB1.show_id :=
  c9_last_writer_wins gNames "AB" "A B" "A B" "a-b!" showAB1 showAB2 [] [] [] rfl
    (by decide) (by decide)
    (by intro p hp; cases hp)
    (by intro p hp; simp only [List.nil_append, List.mem_singleton] at hp; subst hp; decide)

/-- Show-chain traces hold only `accepts`/`populate` events, never a
batch-preparation call. -/
theorem showChain_events_no_prep (enable : Bool) (k : Nat)
    (srcs : List ShowMetadataSource) (sh : Show) :
    ((populateShowMetadataAux enable k srcs sh).2.2).all (fun e => !e.isBatchPrep) = true := by
  induction srcs generalizing k sh with
  | nil => simp [populateShowMetadataAux]
  | cons src rest ih =>
    cases ha : src.accepts sh
    · simp [populateShowMetadataAux, ha, ih, -List.all_eq_true]
    · rcases hp : (src.populate sh).1 with _ | exc
      · simp [populateShowMetadataAux, ha, hp, ih, -List.all_eq_true]
      · cases exc <;> cases enable <;>
          simp [populateShowMetadataAux, ha, hp, ih, -List.all_eq_true]

/-- Episode-chain traces hold only `accepts`/`populate` events. -/
theorem episodeChain_events_no_prep (k : Nat) (srcs : List EpisodeMetadataSource)
    (ep : Episode) :
    ((populateEpisodeMetadataAux k srcs ep).2.2).all (fun e => !e.isBatchPrep) = true := by
  induction srcs generalizing k ep with
  | nil => simp [populateEpisodeMetadataAux]
  | cons src rest ih =>
    cases ha : src.accepts ep
    · simp [populateEpisodeMetadataAux, ha, ih, -List.all_eq_true]
    · rcases hp : (src.populate ep).1 with _ | exc
      · simp [populateEpisodeMetadataAux, ha, hp, ih, -List.all_eq_true]
      · simp [populateEpisodeMetadataAux, ha, hp, -List.all_eq_true]

/-- The feed-insertion scan emits no batch-preparation call. -/
theorem scan_events_no_prep (srcs : List EpisodeMetadataSource) (eps : List Episode) :
    ((add_episodes_to_feed srcs eps).2.2).all (fun e => !e.isBatchPrep) = true := by
  induction eps with
  | nil => simp [add_episodes_to_feed]
  | cons ep rest ih =>
    rcases hp : (populateEpisodeMetadataAux 0 srcs ep).1 with _ | exc
    · simp [add_episodes_to_feed, hp, ih, episodeChain_events_no_prep, -List.all_eq_true]
    · cases exc <;>
        simp [add_episodes_to_feed, hp, ih, episodeChain_events_no_prep, -List.all_eq_true]

/-- The whole-catalog per-episode loop emits no batch-preparation call. -/
theorem allLoop_events_no_prep (srcs : List EpisodeMetadataSource) (eps : List Episode) :
    ((allEpisodesLoop srcs eps).2.2).all (fun e => !e.isBatchPrep) = true := by
  induction eps with
  | nil => simp [allEpisodesLoop]
  | cons ep rest ih =>
    rcases hp : (populateEpisodeMetadataAux 0 srcs ep).1 with _ | exc
    · simp [allEpisodesLoop, hp, ih, episodeChain_events_no_prep, -List.all_eq_true]
    · cases exc <;>
        simp [allEpisodesLoop, hp, ih, episodeChain_events_no_prep, -List.all_eq_true]

/-- The `_generate_feed` tail emits no batch-preparation call when its inputs
do not. -/
theorem innerAfter_events_no_prep (g : Generator) (sh2 : Show) (mevs : List Event)
    (se batch : Bool) (hm : mevs.all (fun e => !e.isBatchPrep) = true) :
    ((innerAfterMetadata g sh2 mevs se batch).2).all (fun e => !e.isBatchPrep) = true := by
  unfold innerAfterMetadata
  rcases ha : (add_episodes_to_feed g.episode_metadata_sources (g.episode_list sh2)).1
    with _ | exc
  · cases h1 : ((g.episode_list sh2).isEmpty && se) <;> cases batch <;>
      simp [h1, ha, hm, scan_events_no_prep, -List.all_eq_true]
  · cases exc <;> cases h1 : ((g.episode_list sh2).isEmpty && se) <;> cases batch <;>
      simp [h1, ha, hm, scan_events_no_prep, -List.all_eq_true]

/-- Single-show generation emits no batch-preparation call at all. -/
theorem inner_events_no_prep (g : Generator) (sh : Show) (se es batch : Bool) :
    ((generateFeedInner g sh se es batch).2).all (fun e => !e.isBatchPrep) = true := by
  unfold generateFeedInner
  rcases hm : (populateShowMetadata es g.show_metadata_sources sh).1 with _ | exc
  · simp only [hm]
    exact innerAfter_events_no_prep g _ _ se batch (showChain_events_no_prep es 0 _ sh)
  · simp only [hm]
    exact showChain_events_no_prep es 0 g.show_metadata_sources sh

/-- The per-show batch loop emits no batch-preparation call. -/
theorem feedsLoop_events_no_prep (g : Generator) (shows : List Show) :
    ((feedsLoop g shows).2).all (fun e => !e.isBatchPrep) = true := by
  induction shows with
  | nil => simp [feedsLoop]
  | cons sh rest ih =>
    rcases hr : (generateFeedInner g sh true true true).1 with exc | fd
    · cases exc <;> simp [feedsLoop, hr, ih, inner_events_no_prep, -List.all_eq_true]
    · simp [feedsLoop, hr, ih, inner_events_no_prep, -List.all_eq_true]

/-- A batch-preparation event never occurs in a trace certified prep-free. -/
theorem count_eq_zero_of_no_prep (l : List Event) (a : Event)
    (h : l.all (fun e => !e.isBatchPrep) = true) (ha : a.isBatchPrep = true) :
    l.count a = 0 := by
  rw [List.count_eq_zero]
  intro hm
  have hx := List.all_eq_true.mp h a hm
  rw [ha] at hx
  cases hx

/-- `prepare_batch` events of the episode chain never collide with other
constructors in the range map. -/
theorem count_in_prepEp_map (n : Nat) (a : Event)
    (h : ∀ i, a ≠ Event.prepareBatchEpisodeSrcEv i) :
    ((List.range n).map Event.prepareBatchEpisodeSrcEv).count a = 0 := by
  rw [List.count_eq_zero]
  intro hm
  rcases List.mem_map.mp hm with ⟨i, _, hi⟩
  exact h i hi.symm

/-- Likewise for the show chain's `prepare_batch` events. -/
theorem count_in_prepSh_map (n : Nat) (a : Event)
    (h : ∀ i, a ≠ Event.prepareBatchShowSrcEv i) :
    ((List.range n).map Event.prepareBatchShowSrcEv).count a = 0 := by
  rw [List.count_eq_zero]
  intro hm
  rcases List.mem_map.mp hm with ⟨i, _, hi⟩
  exact h i hi.symm

/-- The batch preparation issues the whole-catalog fetch exactly once. -/
theorem prep_count_fetchAll (g : Generator) :
    (prepareForBatchEvents g).count Event.fetchAllEpisodesEv = 1 := by
  unfold prepareForBatchEvents
  rw [List.count_cons_self, List.count_append,
    count_in_prepEp_map _ _ (fun i h => by cases h),
    count_in_prepSh_map _ _ (fun i h => by cases h)]

/-- The batch preparation calls `prepare_batch` exactly once on the i-th
episode-level source. -/
theorem prep_count_prepEp (g : Generator) (i : Nat)
    (hi : i < g.episode_metadata_sources.length) :
    (prepareForBatchEvents g).count (Event.prepareBatchEpisodeSrcEv i) = 1 := by
  unfold prepareForBatchEvents
  rw [List.count_cons_of_ne (fun h => by cases h), List.count_append,
    count_in_prepSh_map _ _ (fun j h => by cases h),
    List.count_map_of_injective _ _ (fun a b h => by cases h; rfl),
    List.count_eq_one_of_mem (List.nodup_range _) (List.mem_range.mpr hi)]

/-- The batch preparation calls `prepare_batch` exactly once on the j-th
show-level source. -/
theorem prep_count_prepSh (g : Generator) (j : Nat)
    (hj : j < g.show_metadata_sources.length) :
    (prepareForBatchEvents g).count (Event.prepareBatchShowSrcEv j) = 1 := by
  unfold prepareForBatchEvents
  rw [List.count_cons_of_ne (fun h => by cases h), List.count_append,
    count_in_prepEp_map _ _ (fun i h => by cases h),
    List.count_map_of_injective _ _ (fun a b h => by cases h; rfl),
    List.count_eq_one_of_mem (List.nodup_range _) (List.mem_range.mpr hj)]

/-- The batch preparation performs no `populate` call. -/
theorem prep_no_populate (g : Generator) :
    (prepareForBatchEvents g).all (fun e => !e.isPopulateCall) = true := by
  simp [prepareForBatchEvents, List.all_append, List.all_map, Function.comp,
    Event.isPopulateCall, List.all_eq_true]

/-- A show-chain trace is empty or starts with the `accepts` event of the
first source. -/
theorem showChain_trace_shape (enable : Bool) (k : Nat)
    (srcs : List ShowMetadataSource) (sh : Show) :
    (populateShowMetadataAux enable k srcs sh).2.2 = [] ∨
      ∃ t, (populateShowMetadataAux enable k srcs sh).2.2 =
        Event.acceptsShowSrcEv k sh.show_id :: t := by
  cases srcs with
  | nil => exact Or.inl rfl
  | cons src rest =>
    right
    cases ha : src.accepts sh
    · exact ⟨(populateShowMetadataAux enable (k+1) rest sh).2.2,
        by simp [populateShowMetadataAux, ha]⟩
    · rcases hp : (src.populate sh).1 with _ | exc
      · exact ⟨Event.populateShowSrcEv k sh.show_id ::
          (populateShowMetadataAux enable (k+1) rest (src.populate sh).2).2.2,
          by simp [populateShowMetadataAux, ha, hp]⟩
      · by_cases hsk : exc = Exc.skipShow
        · subst hsk
          cases enable with
          | false =>
            exact ⟨Event.populateShowSrcEv k sh.show_id ::
              (populateShowMetadataAux false (k+1) rest (src.populate sh).2).2.2,
              by simp [populateShowMetadataAux, ha, hp]⟩
          | true =>
            exact ⟨[Event.populateShowSrcEv k sh.show_id],
              by simp [populateShowMetadataAux, ha, hp]⟩
        · refine ⟨[Event.populateShowSrcEv k sh.show_id], ?_⟩
          cases exc <;> simp_all [populateShowMetadataAux, ha, hp]

/-- An episode-chain trace is empty or starts with the `accepts` event of the
first source. -/
theorem episodeChain_trace_shape (k : Nat) (srcs : List EpisodeMetadataSource)
    (ep : Episode) :
    (populateEpisodeMetadataAux k srcs ep).2.2 = [] ∨
      ∃ t, (populateEpisodeMetadataAux k srcs ep).2.2 =
        Event.acceptsEpisodeSrcEv k ep.sound_url :: t := by
  cases srcs with
  | nil => exact Or.inl rfl
  | cons src rest =>
    right
    cases ha : src.accepts ep
    · exact ⟨(populateEpisodeMetadataAux (k+1) rest ep).2.2,
        by simp [populateEpisodeMetadataAux, ha]⟩
    · rcases hp : (src.populate ep).1 with _ | exc
      · exact ⟨Event.populateEpisodeSrcEv k ep.sound_url ::
          (populateEpisodeMetadataAux (k+1) rest (src.populate ep).2).2.2,
          by simp [populateEpisodeMetadataAux, ha, hp]⟩
      · exact ⟨[Event.populateEpisodeSrcEv k ep.sound_url],
          by simp [populateEpisodeMetadataAux, ha, hp]⟩

/-- Skipping a lone `accepts` event preserves the pairing check, provided the
tail does not itself begin with a `populate` event. -/
theorem chainCallsOk_cons_accS (i sid : Nat) (t : List Event)
    (h : t = [] ∨ (∃ i2 sid2 t2, t = Event.acceptsShowSrcEv i2 sid2 :: t2)) :
    chainCallsOk (Event.acceptsShowSrcEv i sid :: t) = chainCallsOk t := by
  rcases h with rfl | ⟨i2, sid2, t2, rfl⟩ <;> rfl

/-- The episode-level analogue of `chainCallsOk_cons_accS`. -/
theorem chainCallsOk_cons_accE (i : Nat) (u : String) (t : List Event)
    (h : t = [] ∨ (∃ i2 u2 t2, t = Event.acceptsEpisodeSrcEv i2 u2 :: t2)) :
    chainCallsOk (Event.acceptsEpisodeSrcEv i u :: t) = chainCallsOk t := by
  rcases h with rfl | ⟨i2, u2, t2, rfl⟩ <;> rfl

/-- In a show-chain trace every `populate` is immediately preceded by the
matching `accepts`. -/
theorem showChain_chainCallsOk (enable : Bool) (k : Nat)
    (srcs : List ShowMetadataSource) (sh : Show) :
    chainCallsOk ((populateShowMetadataAux enable k srcs sh).2.2) = true := by
  induction srcs generalizing k sh with
  | nil => rfl
  | cons src rest ih =>
    cases ha : src.accepts sh
    · have htr : (populateShowMetadataAux enable k (src :: rest) sh).2.2 =
          Event.acceptsShowSrcEv k sh.show_id ::
            (populateShowMetadataAux enable (k+1) rest sh).2.2 := by
        simp [populateShowMetadataAux, ha]
      rw [htr, chainCallsOk_cons_accS]
      · exact ih (k+1) sh
      · rcases showChain_trace_shape enable (k+1) rest sh with h0 | ⟨t, ht⟩
        · exact Or.inl h0
        · exact Or.inr ⟨k+1, sh.show_id, t, ht⟩
    · rcases hp : (src.populate sh).1 with _ | exc
      · have htr : (populateShowMetadataAux enable k (src :: rest) sh).2.2 =
            Event.acceptsShowSrcEv k sh.show_id :: Event.populateShowSrcEv k sh.show_id ::
              (populateShowMetadataAux enable (k+1) rest (src.populate sh).2).2.2 := by
          simp [populateShowMetadataAux, ha, hp]
        rw [htr]
        simp [chainCallsOk, ih (k+1) (src.populate sh).2]
      · by_cases hsk : exc = Exc.skipShow
        · subst hsk
          cases enable with
          | false =>
            have htr : (populateShowMetadataAux false k (src :: rest) sh).2.2 =
                Event.acceptsShowSrcEv k sh.show_id ::
                  Event.populateShowSrcEv k sh.show_id ::
                    (populateShowMetadataAux false (k+1) rest (src.populate sh).2).2.2 := by
              simp [populateShowMetadataAux, ha, hp]
            rw [htr]
            simp [chainCallsOk, ih (k+1) (src.populate sh).2]
          | true =>
            have htr : (populateShowMetadataAux true k (src :: rest) sh).2.2 =
                [Event.acceptsShowSrcEv k sh.show_id,
                  Event.populateShowSrcEv k sh.show_id] := by
              simp [populateShowMetadataAux, ha, hp]
            rw [htr]
            simp [chainCallsOk]
        · have htr : (populateShowMetadataAux enable k (src :: rest) sh).2.2 =
              [Event.acceptsShowSrcEv k sh.show_id,
                Event.populateShowSrcEv k sh.show_id] := by
            cases exc <;> simp_all [populateShowMetadataAux, ha, hp]
          rw [htr]
          simp [chainCallsOk]

/-- In an episode-chain trace every `populate` is immediately preceded by the
matching `accepts`. -/
theorem episodeChain_chainCallsOk (k : Nat) (srcs : List EpisodeMetadataSource)
    (ep : Episode) :
    chainCallsOk ((populateEpisodeMetadataAux k srcs ep).2.2) = true := by
  induction srcs generalizing k ep with
  | nil => rfl
  | cons src rest ih =>
    cases ha : src.accepts ep
    · have htr : (populateEpisodeMetadataAux k (src :: rest) ep).2.2 =
          Event.acceptsEpisodeSrcEv k ep.sound_url ::
            (populateEpisodeMetadataAux (k+1) rest ep).2.2 := by
        simp [populateEpisodeMetadataAux, ha]
      rw [htr, chainCallsOk_cons_accE]
      · exact ih (k+1) ep
      · rcases episodeChain_trace_shape (k+1) rest ep with h0 | ⟨t, ht⟩
        · exact Or.inl h0
        · exact Or.inr ⟨k+1, ep.sound_url, t, ht⟩
    · rcases hp : (src.populate ep).1 with _ | exc
      · have htr : (populateEpisodeMetadataAux k (src :: rest) ep).2.2 =
            Event.acceptsEpisodeSrcEv k ep.sound_url ::
              Event.populateEpisodeSrcEv k ep.sound_url ::
                (populateEpisodeMetadataAux (k+1) rest (src.populate ep).2).2.2 := by
          simp [populateEpisodeMetadataAux, ha, hp]
        rw [htr]
        simp [chainCallsOk, ih (k+1) (src.populate ep).2]
      · have htr : (populateEpisodeMetadataAux k (src :: rest) ep).2.2 =
            [Event.acceptsEpisodeSrcEv k ep.sound_url,
              Event.populateEpisodeSrcEv k ep.sound_url] := by
          simp [populateEpisodeMetadataAux, ha, hp]
        rw [htr]
        simp [chainCallsOk]

/-! Per-branch trace equations of the chains. -/

/-- Trace of a show chain whose head source rejects the show. -/
theorem showChain_trace_notAccepted (enable : Bool) (k : Nat) (src : ShowMetadataSource)
    (rest : List ShowMetadataSource) (sh : Show) (ha : src.accepts sh = false) :
    (populateShowMetadataAux enable k (src :: rest) sh).2.2 =
      Event.acceptsShowSrcEv k sh.show_id ::
        (populateShowMetadataAux enable (k+1) rest sh).2.2 := by
  simp [populateShowMetadataAux, ha]

/-- Trace of a show chain whose head source populates without raising. -/
theorem showChain_trace_ok (enable : Bool) (k : Nat) (src : ShowMetadataSource)
    (rest : List ShowMetadataSource) (sh : Show) (ha : src.accepts sh = true)
    (hp : (src.populate sh).1 = none) :
    (populateShowMetadataAux enable k (src :: rest) sh).2.2 =
      Event.acceptsShowSrcEv k sh.show_id :: Event.populateShowSrcEv k sh.show_id ::
        (populateShowMetadataAux enable (k+1) rest (src.populate sh).2).2.2 := by
  simp [populateShowMetadataAux, ha, hp]

/-- Trace of a show chain whose head source raises `SkipShow` while skipping
is disabled: the chain continues. -/
theorem showChain_trace_skipCont (k : Nat) (src : ShowMetadataSource)
    (rest : List ShowMetadataSource) (sh : Show) (ha : src.accepts sh = true)
    (hp : (src.populate sh).1 = some Exc.skipShow) :
    (populateShowMetadataAux false k (src :: rest) sh).2.2 =
      Event.acceptsShowSrcEv k sh.show_id :: Event.populateShowSrcEv k sh.show_id ::
        (populateShowMetadataAux false (k+1) rest (src.populate sh).2).2.2 := by
  simp [populateShowMetadataAux, ha, hp]

/-- Trace of a show chain whose head source raises an exception that
propagates (any non-skip exception, or `SkipShow` with skipping enabled). -/
theorem showChain_trace_raise (enable : Bool) (k : Nat) (src : ShowMetadataSource)
    (rest : List ShowMetadataSource) (sh : Show) (exc : Exc)
    (ha : src.accepts sh = true) (hp : (src.populate sh).1 = some exc)
    (hr : exc = Exc.skipShow → enable = true) :
    (populateShowMetadataAux enable k (src :: rest) sh).2.2 =
      [Event.acceptsShowSrcEv k sh.show_id, Event.populateShowSrcEv k sh.show_id] := by
  by_cases hsk : exc = Exc.skipShow
  · subst hsk
    rw [hr rfl]
    simp [populateShowMetadataAux, ha, hp]
  · cases exc <;> simp_all [populateShowMetadataAux, ha, hp]

/-- Trace of an episode chain whose head source rejects the episode. -/
theorem episodeChain_trace_notAccepted (k : Nat) (src : EpisodeMetadataSource)
    (rest : List EpisodeMetadataSource) (ep : Episode) (ha : src.accepts ep = false) :
    (populateEpisodeMetadataAux k (src :: rest) ep).2.2 =
      Event.acceptsEpisodeSrcEv k ep.sound_url ::
        (populateEpisodeMetadataAux (k+1) rest ep).2.2 := by
  simp [populateEpisodeMetadataAux, ha]

/-- Trace of an episode chain whose head source populates without raising. -/
theorem episodeChain_trace_ok (k : Nat) (src : EpisodeMetadataSource)
    (rest : List EpisodeMetadataSource) (ep : Episode) (ha : src.accepts ep = true)
    (hp : (src.populate ep).1 = none) :
    (populateEpisodeMetadataAux k (src :: rest) ep).2.2 =
      Event.acceptsEpisodeSrcEv k ep.sound_url :: Event.populateEpisodeSrcEv k ep.sound_url ::
        (populateEpisodeMetadataAux (k+1) rest (src.populate ep).2).2.2 := by
  simp [populateEpisodeMetadataAux, ha, hp]

/-- Trace of an episode chain whose head source raises (every exception
propagates out of an episode chain). -/
theorem episodeChain_trace_raise (k : Nat) (src : EpisodeMetadataSource)
    (rest : List EpisodeMetadataSource) (ep : Episode) (exc : Exc)
    (ha : src.accepts ep = true) (hp : (src.populate ep).1 = some exc) :
    (populateEpisodeMetadataAux k (src :: rest) ep).2.2 =
      [Event.acceptsEpisodeSrcEv k ep.sound_url, Event.populateEpisodeSrcEv k ep.sound_url] := by
  simp [populateEpisodeMetadataAux, ha, hp]

/-! Evaluation lemmas for the consulted-position projections. -/

@[simp] theorem consultedShowIdx_nil : consultedShowIdx [] = [] := rfl

@[simp] theorem consultedShowIdx_cons_acc (i sid : Nat) (t : List Event) :
    consultedShowIdx (Event.acceptsShowSrcEv i sid :: t) = i :: consultedShowIdx t := rfl

@[simp] theorem consultedShowIdx_cons_pop (i sid : Nat) (t : List Event) :
    consultedShowIdx (Event.populateShowSrcEv i sid :: t) = consultedShowIdx t := rfl

@[simp] theorem consultedEpisodeIdx_nil : consultedEpisodeIdx [] = [] := rfl

@[simp] theorem consultedEpisodeIdx_cons_acc (i : Nat) (u : String) (t : List Event) :
    consultedEpisodeIdx (Event.acceptsEpisodeSrcEv i u :: t) = i :: consultedEpisodeIdx t := rfl

@[simp] theorem consultedEpisodeIdx_cons_pop (i : Nat) (u : String) (t : List Event) :
    consultedEpisodeIdx (Event.populateEpisodeSrcEv i u :: t) = consultedEpisodeIdx t := rfl

/-- The show chain consults positions at or after `k`, in strictly increasing
order. -/
theorem showChain_consulted_sorted (enable : Bool) (k : Nat)
    (srcs : List ShowMetadataSource) (sh : Show) :
    (∀ i ∈ consultedShowIdx ((populateShowMetadataAux enable k srcs sh).2.2), k ≤ i) ∧
      List.Chain' (fun a b => a < b)
        (consultedShowIdx ((populateShowMetadataAux enable k srcs sh).2.2)) := by
  induction srcs generalizing k sh with
  | nil => exact ⟨fun i hi => absurd hi (List.not_mem_nil i), List.chain'_nil⟩
  | cons src rest ih =>
    have step : ∀ (t : List Event) (s2 : Show),
        t = (populateShowMetadataAux enable (k+1) rest s2).2.2 →
        (∀ i ∈ consultedShowIdx (Event.acceptsShowSrcEv k sh.show_id :: t), k ≤ i) ∧
          List.Chain' (fun a b => a < b)
            (consultedShowIdx (Event.acceptsShowSrcEv k sh.show_id :: t)) := by
      intro t s2 ht
      obtain ⟨ihlb, ihch⟩ := ih (k+1) s2
      constructor
      · intro i hi
        rw [consultedShowIdx_cons_acc, List.mem_cons] at hi
        rcases hi with rfl | hi
        · exact Nat.le_refl i
        · rw [ht] at hi
          exact Nat.le_of_succ_le (ihlb i hi)
      · rw [consultedShowIdx_cons_acc, List.chain'_cons']
        refine ⟨?_, by rw [ht]; exact ihch⟩
        intro b hb
        have hbm : b ∈ consultedShowIdx t :=
          List.mem_of_mem_head? hb
        rw [ht] at hbm
        exact Nat.lt_of_succ_le (ihlb b hbm)
    cases ha : src.accepts sh
    · rw [showChain_trace_notAccepted enable k src rest sh ha]
      exact step _ sh rfl
    · rcases hp : (src.populate sh).1 with _ | exc
      · rw [showChain_trace_ok enable k src rest sh ha hp, consultedShowIdx_cons_acc,
          consultedShowIdx_cons_pop, ← consultedShowIdx_cons_acc]
        exact step _ (src.populate sh).2 rfl
      · by_cases hsk : exc = Exc.skipShow
        · subst hsk
          cases enable with
          | false =>
            rw [showChain_trace_skipCont k src rest sh ha hp, consultedShowIdx_cons_acc,
              consultedShowIdx_cons_pop, ← consultedShowIdx_cons_acc]
            exact step _ (src.populate sh).2 rfl
          | true =>
            rw [showChain_trace_raise true k src rest sh _ ha hp (fun _ => rfl)]
            refine ⟨?_, ?_⟩
            · intro i hi
              simp only [consultedShowIdx_cons_acc, consultedShowIdx_cons_pop,
                consultedShowIdx_nil, List.mem_singleton] at hi
              subst hi
              exact Nat.le_refl _
            · simp
        · rw [showChain_trace_raise enable k src rest sh exc ha hp
            (fun hc => absurd hc hsk)]
          refine ⟨?_, ?_⟩
          · intro i hi
            simp only [consultedShowIdx_cons_acc, consultedShowIdx_cons_pop,
              consultedShowIdx_nil, List.mem_singleton] at hi
            subst hi
            exact Nat.le_refl _
          · simp

/-- The episode chain consults positions at or after `k`, in strictly
increasing order. -/
theorem episodeChain_consulted_sorted (k : Nat) (srcs : List EpisodeMetadataSource)
    (ep : Episode) :
    (∀ i ∈ consultedEpisodeIdx ((populateEpisodeMetadataAux k srcs ep).2.2), k ≤ i) ∧
      List.Chain' (fun a b => a < b)
        (consultedEpisodeIdx ((populateEpisodeMetadataAux k srcs ep).2.2)) := by
  induction srcs generalizing k ep with
  | nil => exact ⟨fun i hi => absurd hi (List.not_mem_nil i), List.chain'_nil⟩
  | cons src rest ih =>
    have step : ∀ (t : List Event) (e2 : Episode),
        t = (populateEpisodeMetadataAux (k+1) rest e2).2.2 →
        (∀ i ∈ consultedEpisodeIdx (Event.acceptsEpisodeSrcEv k ep.sound_url :: t), k ≤ i) ∧
          List.Chain' (fun a b => a < b)
            (consultedEpisodeIdx (Event.acceptsEpisodeSrcEv k ep.sound_url :: t)) := by
      intro t e2 ht
      obtain ⟨ihlb, ihch⟩ := ih (k+1) e2
      constructor
      · intro i hi
        rw [consultedEpisodeIdx_cons_acc, List.mem_cons] at hi
        rcases hi with rfl | hi
        · exact Nat.le_refl i
        · rw [ht] at hi
          exact Nat.le_of_succ_le (ihlb i hi)
      · rw [consultedEpisodeIdx_cons_acc, List.chain'_cons']
        refine ⟨?_, by rw [ht]; exact ihch⟩
        intro b hb
        have hbm : b ∈ consultedEpisodeIdx t := List.mem_of_mem_head? hb
        rw [ht] at hbm
        exact Nat.lt_of_succ_le (ihlb b hbm)
    cases ha : src.accepts ep
    · rw [episodeChain_trace_notAccepted k src rest ep ha]
      exact step _ ep rfl
    · rcases hp : (src.populate ep).1 with _ | exc
      · rw [episodeChain_trace_ok k src rest ep ha hp, consultedEpisodeIdx_cons_acc,
          consultedEpisodeIdx_cons_pop, ← consultedEpisodeIdx_cons_acc]
        exact step _ (src.populate ep).2 rfl
      · rw [episodeChain_trace_raise k src rest ep exc ha hp]
        refine ⟨?_, ?_⟩
        · intro i hi
          simp only [consultedEpisodeIdx_cons_acc, consultedEpisodeIdx_cons_pop,
            consultedEpisodeIdx_nil, List.mem_singleton] at hi
          subst hi
          exact Nat.le_refl _
        · simp

/-- Adding a source in front re-indexes the bypass check for a trace whose
`populate` events all lie at or after `k+1`. -/
theorem noBypassedShow_weaken (k : Nat) (src : ShowMetadataSource)
    (srcs : List ShowMetadataSource) (tr : List Event)
    (hlb : ∀ i sid, Event.populateShowSrcEv i sid ∈ tr → k + 1 ≤ i)
    (h : noBypassedShowPopulate (k+1) srcs tr = true) :
    noBypassedShowPopulate k (src :: srcs) tr = true := by
  unfold noBypassedShowPopulate at h ⊢
  rw [List.all_eq_true] at h ⊢
  intro e he
  have h2 := h e he
  cases e with
  | populateShowSrcEv i sid =>
    have hi := hlb i sid he
    have hsub : i - k = (i - (k+1)) + 1 := by omega
    show (match (src :: srcs).get? (i - k) with
      | some s => !(decide (sid ∈ s.bypass))
      | none => true) = true
    rw [hsub, List.get?_cons_succ]
    exact h2
  | fetchAllEpisodesEv => rfl
  | fetchEpisodeListEv sid => rfl
  | prepareBatchEpisodeSrcEv i => rfl
  | prepareBatchShowSrcEv i => rfl
  | acceptsShowSrcEv i sid => rfl
  | acceptsEpisodeSrcEv i u => rfl
  | populateEpisodeSrcEv i u => rfl

/-- The episode-level analogue of `noBypassedShow_weaken`. -/
theorem noBypassedEpisode_weaken (k : Nat) (src : EpisodeMetadataSource)
    (srcs : List EpisodeMetadataSource) (tr : List Event)
    (hlb : ∀ i u, Event.populateEpisodeSrcEv i u ∈ tr → k + 1 ≤ i)
    (h : noBypassedEpisodePopulate (k+1) srcs tr = true) :
    noBypassedEpisodePopulate k (src :: srcs) tr = true := by
  unfold noBypassedEpisodePopulate at h ⊢
  rw [List.all_eq_true] at h ⊢
  intro e he
  have h2 := h e he
  cases e with
  | populateEpisodeSrcEv i u =>
    have hi := hlb i u he
    have hsub : i - k = (i - (k+1)) + 1 := by omega
    show (match (src :: srcs).get? (i - k) with
      | some s => !(decide (u ∈ s.bypass))
      | none => true) = true
    rw [hsub, List.get?_cons_succ]
    exact h2
  | fetchAllEpisodesEv => rfl
  | fetchEpisodeListEv sid => rfl
  | prepareBatchEpisodeSrcEv i => rfl
  | prepareBatchShowSrcEv i => rfl
  | acceptsShowSrcEv i sid => rfl
  | acceptsEpisodeSrcEv i u => rfl
  | populateShowSrcEv i sid => rfl

/-- Under bypass-respecting `accepts`, the show chain's `populate` events lie
at or after `k` and never name a bypassed show identifier. -/
theorem showChain_noBypassed (enable : Bool) (k : Nat)
    (srcs : List ShowMetadataSource) (sh : Show)
    (hb : ∀ src ∈ srcs, ∀ s : Show, s.show_id ∈ src.bypass → src.accepts s = false) :
    (∀ i sid, Event.populateShowSrcEv i sid ∈
        (populateShowMetadataAux enable k srcs sh).2.2 → k ≤ i) ∧
      noBypassedShowPopulate k srcs
        ((populateShowMetadataAux enable k srcs sh).2.2) = true := by
  revert hb
  induction srcs generalizing k sh with
  | nil =>
    intro hb
    exact ⟨fun i sid hm => absurd hm (List.not_mem_nil _), rfl⟩
  | cons src rest ih =>
    intro hb
    have hbr : ∀ s2 ∈ rest, ∀ s : Show, s.show_id ∈ s2.bypass → s2.accepts s = false :=
      fun s2 hm => hb s2 (List.mem_cons_of_mem _ hm)
    have hnotin : src.accepts sh = true → sh.show_id ∉ src.bypass := by
      intro ha hm
      have hf := hb src (List.mem_cons_self _ _) sh hm
      rw [hf] at ha
      exact Bool.noConfusion ha
    have step1 : ∀ (t : List Event),
        (∀ i sid, Event.populateShowSrcEv i sid ∈ t → k + 1 ≤ i) →
        noBypassedShowPopulate (k+1) rest t = true →
        (∀ i sid, Event.populateShowSrcEv i sid ∈
            (Event.acceptsShowSrcEv k sh.show_id :: t) → k ≤ i) ∧
          noBypassedShowPopulate k (src :: rest)
            (Event.acceptsShowSrcEv k sh.show_id :: t) = true := by
      intro t hlb hnb
      constructor
      · intro i sid hm
        rcases List.mem_cons.mp hm with heq | hm2
        · cases heq
        · exact Nat.le_of_succ_le (hlb i sid hm2)
      · have hw := noBypassedShow_weaken k src rest t hlb hnb
        unfold noBypassedShowPopulate at hw ⊢
        rw [List.all_cons]
        simp only [Bool.and_eq_true]
        exact ⟨by trivial, hw⟩
    have step2 : ∀ (t : List Event),
        (∀ i sid, Event.populateShowSrcEv i sid ∈ t → k + 1 ≤ i) →
        noBypassedShowPopulate (k+1) rest t = true →
        src.accepts sh = true →
        (∀ i sid, Event.populateShowSrcEv i sid ∈
            (Event.acceptsShowSrcEv k sh.show_id ::
              Event.populateShowSrcEv k sh.show_id :: t) → k ≤ i) ∧
          noBypassedShowPopulate k (src :: rest)
            (Event.acceptsShowSrcEv k sh.show_id ::
              Event.populateShowSrcEv k sh.show_id :: t) = true := by
      intro t hlb hnb ha
      constructor
      · intro i sid hm
        rcases List.mem_cons.mp hm with heq | hm2
        · cases heq
        · rcases List.mem_cons.mp hm2 with heq | hm3
          · cases heq
            exact Nat.le_refl _
          · exact Nat.le_of_succ_le (hlb i sid hm3)
      · have hw := noBypassedShow_weaken k src rest t hlb hnb
        unfold noBypassedShowPopulate at hw ⊢
        rw [List.all_cons, List.all_cons]
        simp only [Bool.and_eq_true]
        refine ⟨by trivial, ?_, hw⟩
        simp [Nat.sub_self, hnotin ha]
    cases ha : src.accepts sh
    · rw [showChain_trace_notAccepted enable k src rest sh ha]
      obtain ⟨ihlb, ihnb⟩ := ih (k+1) sh hbr
      exact step1 _ ihlb ihnb
    · rcases hp : (src.populate sh).1 with _ | exc
      · rw [showChain_trace_ok enable k src rest sh ha hp]
        obtain ⟨ihlb, ihnb⟩ := ih (k+1) (src.populate sh).2 hbr
        exact step2 _ ihlb ihnb ha
      · by_cases hsk : exc = Exc.skipShow
        · subst hsk
          cases enable with
          | false =>
            rw [showChain_trace_skipCont k src rest sh ha hp]
            obtain ⟨ihlb, ihnb⟩ := ih (k+1) (src.populate sh).2 hbr
            exact step2 _ ihlb ihnb ha
          | true =>
            rw [showChain_trace_raise true k src rest sh _ ha hp (fun _ => rfl)]
            exact step2 [] (fun i sid hm => absurd hm (List.not_mem_nil _)) rfl ha
        · rw [showChain_trace_raise enable k src rest sh exc ha hp
            (fun hc => absurd hc hsk)]
          exact step2 [] (fun i sid hm => absurd hm (List.not_mem_nil _)) rfl ha

/-- Under bypass-respecting `accepts`, the episode chain's `populate` events
lie at or after `k` and never name a bypassed sound URL. -/
theorem episodeChain_noBypassed (k : Nat) (srcs : List EpisodeMetadataSource)
    (ep : Episode)
    (hb : ∀ src ∈ srcs, ∀ e : Episode, e.sound_url ∈ src.bypass → src.accepts e = false) :
    (∀ i u, Event.populateEpisodeSrcEv i u ∈
        (populateEpisodeMetadataAux k srcs ep).2.2 → k ≤ i) ∧
      noBypassedEpisodePopulate k srcs
        ((populateEpisodeMetadataAux k srcs ep).2.2) = true := by
  revert hb
  induction srcs generalizing k ep with
  | nil =>
    intro hb
    exact ⟨fun i u hm => absurd hm (List.not_mem_nil _), rfl⟩
  | cons src rest ih =>
    intro hb
    have hbr : ∀ s2 ∈ rest, ∀ e : Episode, e.sound_url ∈ s2.bypass → s2.accepts e = false :=
      fun s2 hm => hb s2 (List.mem_cons_of_mem _ hm)
    have hnotin : src.accepts ep = true → ep.sound_url ∉ src.bypass := by
      intro ha hm
      have hf := hb src (List.mem_cons_self _ _) ep hm
      rw [hf] at ha
      exact Bool.noConfusion ha
    have step1 : ∀ (t : List Event),
        (∀ i u, Event.populateEpisodeSrcEv i u ∈ t → k + 1 ≤ i) →
        noBypassedEpisodePopulate (k+1) rest t = true →
        (∀ i u, Event.populateEpisodeSrcEv i u ∈
            (Event.acceptsEpisodeSrcEv k ep.sound_url :: t) → k ≤ i) ∧
          noBypassedEpisodePopulate k (src :: rest)
            (Event.acceptsEpisodeSrcEv k ep.sound_url :: t) = true := by
      intro t hlb hnb
      constructor
      · intro i u hm
        rcases List.mem_cons.mp hm with heq | hm2
        · cases heq
        · exact Nat.le_of_succ_le (hlb i u hm2)
      · have hw := noBypassedEpisode_weaken k src rest t hlb hnb
        unfold noBypassedEpisodePopulate at hw ⊢
        rw [List.all_cons]
        simp only [Bool.and_eq_true]
        exact ⟨by trivial, hw⟩
    have step2 : ∀ (t : List Event),
        (∀ i u, Event.populateEpisodeSrcEv i u ∈ t → k + 1 ≤ i) →
        noBypassedEpisodePopulate (k+1) rest t = true →
        src.accepts ep = true →
        (∀ i u, Event.populateEpisodeSrcEv i u ∈
            (Event.acceptsEpisodeSrcEv k ep.sound_url ::
              Event.populateEpisodeSrcEv k ep.sound_url :: t) → k ≤ i) ∧
          noBypassedEpisodePopulate k (src :: rest)
            (Event.acceptsEpisodeSrcEv k ep.sound_url ::
              Event.populateEpisodeSrcEv k ep.sound_url :: t) = true := by
      intro t hlb hnb ha
      constructor
      · intro i u hm
        rcases List.mem_cons.mp hm with heq | hm2
        · cases heq
        · rcases List.mem_cons.mp hm2 with heq | hm3
          · cases heq
            exact Nat.le_refl _
          · exact Nat.le_of_succ_le (hlb i u hm3)
      · have hw := noBypassedEpisode_weaken k src rest t hlb hnb
        unfold noBypassedEpisodePopulate at hw ⊢
        rw [List.all_cons, List.all_cons]
        simp only [Bool.and_eq_true]
        refine ⟨by trivial, ?_, hw⟩
        simp [Nat.sub_self, hnotin ha]
    cases ha : src.accepts ep
    · rw [episodeChain_trace_notAccepted k src rest ep ha]
      obtain ⟨ihlb, ihnb⟩ := ih (k+1) ep hbr
      exact step1 _ ihlb ihnb
    · rcases hp : (src.populate ep).1 with _ | exc
      · rw [episodeChain_trace_ok k src rest ep ha hp]
        obtain ⟨ihlb, ihnb⟩ := ih (k+1) (src.populate ep).2 hbr
        exact step2 _ ihlb ihnb ha
      · rw [episodeChain_trace_raise k src rest ep exc ha hp]
        exact step2 [] (fun i u hm => absurd hm (List.not_mem_nil _)) rfl ha

/-- C6: for every entity (show or episode), the chain consults the configured
sources strictly in chain order, invokes a source's `populate` only
immediately after that same source's `accepts` returned true on that entity,
and — under the precondition that every source's `accepts` returns false for
the identifiers in its bypass set — an entity whose identifier is in a
source's bypass set is never passed to that source's `populate`. -/
theorem c6_chain_contract (enable : Bool) (ssrcs : List ShowMetadataSource)
    (esrcs : List EpisodeMetadataSource) (sh : Show) (ep : Episode)
    (hbs : ∀ src ∈ ssrcs, ∀ s : Show, s.show_id ∈ src.bypass → src.accepts s = false)
    (hbe : ∀ src ∈ esrcs, ∀ e : Episode, e.sound_url ∈ src.bypass → src.accepts e = false) :
    chainCallsOk ((populateShowMetadata enable ssrcs sh).2.2) = true ∧
      chainCallsOk ((populateEpisodeMetadataAux 0 esrcs ep).2.2) = true ∧
      List.Chain' (fun a b => a < b)
        (consultedShowIdx ((populateShowMetadata enable ssrcs sh).2.2)) ∧
      List.Chain' (fun a b => a < b)
        (consultedEpisodeIdx ((populateEpisodeMetadataAux 0 esrcs ep).2.2)) ∧
      noBypassedShowPopulate 0 ssrcs ((populateShowMetadata enable ssrcs sh).2.2) = true ∧
      noBypassedEpisodePopulate 0 esrcs
        ((populateEpisodeMetadataAux 0 esrcs ep).2.2) = true :=
  ⟨showChain_chainCallsOk enable 0 ssrcs sh,
    episodeChain_chainCallsOk 0 esrcs ep,
    (showChain_consulted_sorted enable 0 ssrcs sh).2,
    (episodeChain_consulted_sorted 0 esrcs ep).2,
    (showChain_noBypassed enable 0 ssrcs sh hbs).2,
    (episodeChain_noBypassed 0 esrcs ep hbe).2⟩

/-- C6 witness: a bypassing source (whose `accepts` honours its bypass set)
followed by a benign source, applied to a bypassed show and a bypassed
episode. -/
theorem c6_chain_contract_witness :
    chainCallsOk ((populateShowMetadata true [bypassShowSrc, benignShowSrc] showA).2.2) = true ∧
      chainCallsOk ((populateEpisodeMetadataAux 0
        [bypassEpisodeSrc, benignEpisodeSrc] epX).2.2) = true ∧
      List.Chain' (fun a b => a < b) (consultedShowIdx
        ((populateShowMetadata true [bypassShowSrc, benignShowSrc] showA).2.2)) ∧
      List.Chain' (fun a b => a < b) (consultedEpisodeIdx
        ((populateEpisodeMetadataAux 0 [bypassEpisodeSrc, benignEpisodeSrc] epX).2.2)) ∧
      noBypassedShowPopulate 0 [bypassShowSrc, benignShowSrc]
        ((populateShowMetadata true [bypassShowSrc, benignShowSrc] showA).2.2) = true ∧
      noBypassedEpisodePopulate 0 [bypassEpisodeSrc, benignEpisodeSrc]
        ((populateEpisodeMetadataAux 0 [bypassEpisodeSrc, benignEpisodeSrc] epX).2.2) = true :=
  c6_chain_contract true [bypassShowSrc, benignShowSrc] [bypassEpisodeSrc, benignEpisodeSrc]
    showA epX
    (by
      intro src hm s hmem
      simp only [List.mem_cons, List.not_mem_nil, or_false] at hm
      rcases hm with rfl | rfl
      · simp only [bypassShowSrc] at hmem ⊢
        simp only [List.mem_singleton] at hmem
        simp [hmem]
      · simp only [benignShowSrc] at hmem
        exact absurd hmem (List.not_mem_nil _))
    (by
      intro src hm e hmem
      simp only [List.mem_cons, List.not_mem_nil, or_false] at hm
      rcases hm with rfl | rfl
      · simp only [bypassEpisodeSrc] at hmem ⊢
        simp only [List.mem_singleton] at hmem
        simp [hmem]
      · simp only [benignEpisodeSrc] at hmem
        exact absurd hmem (List.not_mem_nil _))

/-- Appending a preparation-free tail leaves the count of any
batch-preparation event untouched. -/
theorem count_prep_append (g : Generator) (tail : List Event) (a : Event)
    (htail : tail.all (fun e => !e.isBatchPrep) = true) (ha : a.isBatchPrep = true) :
    (prepareForBatchEvents g ++ tail).count a = (prepareForBatchEvents g).count a := by
  rw [List.count_append, count_eq_zero_of_no_prep tail a htail ha]
  omega

/-- The trace of `generate_feed_with_all_episodes` is the batch-preparation
prefix followed by a preparation-free tail. -/
theorem allFeed_trace_split (g : Generator) (title : Option String) :
    ∃ tail, (generate_feed_with_all_episodes g title).2 =
      prepareForBatchEvents g ++ tail ∧ tail.all (fun e => !e.isBatchPrep) = true := by
  unfold generate_feed_with_all_episodes
  rcases hb : buildAllEpisodeEntities g with exc | eps
  · exact ⟨[], by simp, rfl⟩
  · rcases hl : (allEpisodesLoop g.episode_metadata_sources eps).1 with _ | exc
    · exact ⟨(allEpisodesLoop g.episode_metadata_sources eps).2.2, by simp [hl],
        allLoop_events_no_prep _ _⟩
    · exact ⟨(allEpisodesLoop g.episode_metadata_sources eps).2.2, by simp [hl],
        allLoop_events_no_prep _ _⟩

/-- C2: every batch run — `generate_feeds_sequence` over any collection of
shows, and `generate_feed_with_all_episodes` — issues the whole-catalog
episode fetch exactly once regardless of the number of shows, and calls
`prepare_batch` exactly once on each configured episode-level and show-level
source, strictly before any `populate` call of that batch: the trace splits
into a populate-free preparation prefix and a preparation-free tail. -/
theorem c2_batch_prep_once (g : Generator) (shows : List Show) (title : Option String)
    (i j : Nat) (hi : i < g.episode_metadata_sources.length)
    (hj : j < g.show_metadata_sources.length) :
    ((generate_feeds_sequence g shows).2).count Event.fetchAllEpisodesEv = 1 ∧
      ((generate_feeds_sequence g shows).2).count (Event.prepareBatchEpisodeSrcEv i) = 1 ∧
      ((generate_feeds_sequence g shows).2).count (Event.prepareBatchShowSrcEv j) = 1 ∧
      ((generate_feed_with_all_episodes g title).2).count Event.fetchAllEpisodesEv = 1 ∧
      ((generate_feed_with_all_episodes g title).2).count
        (Event.prepareBatchEpisodeSrcEv i) = 1 ∧
      ((generate_feed_with_all_episodes g title).2).count
        (Event.prepareBatchShowSrcEv j) = 1 ∧
      (∃ pre post, (generate_feeds_sequence g shows).2 = pre ++ post ∧
        pre.all (fun e => !e.isPopulateCall) = true ∧
        post.all (fun e => !e.isBatchPrep) = true) ∧
      (∃ pre post, (generate_feed_with_all_episodes g title).2 = pre ++ post ∧
        pre.all (fun e => !e.isPopulateCall) = true ∧
        post.all (fun e => !e.isBatchPrep) = true) := by
  obtain ⟨tail, htr, htail⟩ := allFeed_trace_split g title
  have hseq : (generate_feeds_sequence g shows).2 =
      prepareForBatchEvents g ++ (feedsLoop g shows).2 := rfl
  have hloop := feedsLoop_events_no_prep g shows
  rw [hseq, htr]
  refine ⟨?_, ?_, ?_, ?_, ?_, ?_, ?_, ?_⟩
  · rw [count_prep_append g _ _ hloop isBatchPrep_fetchAll]
    exact prep_count_fetchAll g
  · rw [count_prep_append g _ _ hloop (isBatchPrep_prepEp i)]
    exact prep_count_prepEp g i hi
  · rw [count_prep_append g _ _ hloop (isBatchPrep_prepSh j)]
    exact prep_count_prepSh g j hj
  · rw [count_prep_append g _ _ htail isBatchPrep_fetchAll]
    exact prep_count_fetchAll g
  · rw [count_prep_append g _ _ htail (isBatchPrep_prepEp i)]
    exact prep_count_prepEp g i hi
  · rw [count_prep_append g _ _ htail (isBatchPrep_prepSh j)]
    exact prep_count_prepSh g j hj
  · exact ⟨prepareForBatchEvents g, (feedsLoop g shows).2, rfl, prep_no_populate g, hloop⟩
  · exact ⟨prepareForBatchEvents g, tail, rfl, prep_no_populate g, htail⟩

/-- C2 witness: a one-show catalog with one source per chain prepares each
source once and fetches the whole-catalog list once in both batch modes. -/
theorem c2_batch_prep_once_witness :
    ((generate_feeds_sequence gBenign [showA]).2).count Event.fetchAllEpisodesEv = 1 ∧
      ((generate_feeds_sequence gBenign [showA]).2).count
        (Event.prepareBatchEpisodeSrcEv 0) = 1 ∧
      ((generate_feeds_sequence gBenign [showA]).2).count
        (Event.prepareBatchShowSrcEv 0) = 1 ∧
      ((generate_feed_with_all_episodes gBenign none).2).count Event.fetchAllEpisodesEv = 1 ∧
      ((generate_feed_with_all_episodes gBenign none).2).count
        (Event.prepareBatchEpisodeSrcEv 0) = 1 ∧
      ((generate_feed_with_all_episodes gBenign none).2).count
        (Event.prepareBatchShowSrcEv 0) = 1 ∧
      (∃ pre post, (generate_feeds_sequence gBenign [showA]).2 = pre ++ post ∧
        pre.all (fun e => !e.isPopulateCall) = true ∧
        post.all (fun e => !e.isBatchPrep) = true) ∧
      (∃ pre post, (generate_feed_with_all_episodes gBenign none).2 = pre ++ post ∧
        pre.all (fun e => !e.isPopulateCall) = true ∧
        post.all (fun e => !e.isBatchPrep) = true) :=
  c2_batch_prep_once gBenign [showA] none 0 0 (by decide) (by decide)

end PodcastFeedGen
